import Mathlib

/-!
Verification of the amazon-ppc backend core: a shallow embedding of the
parsing/cleaning helpers (`backend/services/parser.py`), the rule engine
(`backend/services/optimization.py`), the negative-file row builder
(`backend/services/negative_generator.py`) and the identity resolver
(`enrich_with_ids` in `backend/services/parser.py`), together with theorems
about the behaviour of these functions.

Conventions of the embedding:
* Python floats are modelled as exact rationals (`ℚ`); none of the verified
  properties depend on binary floating-point rounding.
* A pandas cell is a `PyVal`: a missing value (`NaN`/`None`) is `PyVal.na`,
  numbers are `PyVal.num`, strings are `PyVal.str`, and any other Python
  object is `PyVal.other`.
* `float(s)` on an already-stripped string is modelled by `pyFloat?`, a
  parser for optionally signed decimal literals with an optional exponent
  (the special forms `inf`/`nan`/underscore separators are not modelled;
  they do not occur in the spreadsheet data this code consumes).
* Fallible Python code is modelled with `Except`/`Option`.
-/

namespace AmazonPPC

/-! ## Python string primitives

All string manipulation is done on the underlying character list (`.data`),
because the byte-position based `String` functions of the Lean core library
do not reduce in the kernel; `String.mk`/`String.data` of literals do. -/

/-- Python `str.lower()` (per-character, which is what the ASCII headers and
names in this code base exercise). -/
def pyLower (s : String) : String :=
  String.mk (s.data.map Char.toLower)

/-- Python `str.upper()`. -/
def pyUpper (s : String) : String :=
  String.mk (s.data.map Char.toUpper)

/-- Python `str.strip()`: remove leading and trailing whitespace. -/
def pyStrip (s : String) : String :=
  String.mk (((s.data.dropWhile Char.isWhitespace).reverse.dropWhile
    Char.isWhitespace).reverse)

/-- Python `s.strip(chars)`: remove leading and trailing characters drawn
from `chars`. -/
def pyStripChars (cs : List Char) (s : String) : String :=
  String.mk (((s.data.dropWhile (fun x => cs.contains x)).reverse.dropWhile
    (fun x => cs.contains x)).reverse)

/-- Python `s.replace(c, '')` for a single character `c`: drop every
occurrence. -/
def removeChar (c : Char) (s : String) : String :=
  String.mk (s.data.filter (fun x => x ≠ c))

/-- Python `s.replace(c, d)` for single characters. -/
def replaceChar (c d : Char) (s : String) : String :=
  String.mk (s.data.map (fun x => if x = c then d else x))

/-- Python `s.startswith(p)`. -/
def pyStartsWith (s p : String) : Bool :=
  p.data.isPrefixOf s.data

/-- Python `s.endswith(p)`. -/
def pyEndsWith (s p : String) : Bool :=
  p.data.reverse.isPrefixOf s.data.reverse

/-- Python `len(s)`: number of characters. -/
def pyLen (s : String) : ℕ :=
  s.data.length

/-- Drop the last `n` characters (Python `s[:-n]` for `n ≤ len(s)`). -/
def dropRightStr (s : String) (n : ℕ) : String :=
  String.mk (s.data.take (s.data.length - n))

/-- Numeric value of a decimal digit character. -/
def digitVal (c : Char) : ℕ :=
  c.toNat - 48

/-- Value of a list of decimal digit characters, most significant first. -/
def natOfDigits (l : List Char) : ℕ :=
  l.foldl (fun a c => 10 * a + digitVal c) 0

/-- Split an optional leading sign off a character list; `true` means the
number is negative. -/
def splitSign : List Char → Bool × List Char
  | '-' :: r => (true, r)
  | '+' :: r => (false, r)
  | cs => (false, cs)

/-- Parse the mantissa of a Python float literal: digits, optionally with a
decimal point (`"12"`, `"12."`, `"12.5"`, `".5"`).  Returns the digit string
read as a natural number together with the number of fractional digits, so
that the mantissa value is `m / 10 ^ k`. -/
def parseMantissa? (cs : List Char) : Option (ℕ × ℕ) :=
  let intPart := cs.takeWhile Char.isDigit
  let rest := cs.dropWhile Char.isDigit
  match rest with
  | [] => if intPart.isEmpty then none else some (natOfDigits intPart, 0)
  | '.' :: r =>
    let fracPart := r.takeWhile Char.isDigit
    let rest2 := r.dropWhile Char.isDigit
    if rest2.isEmpty ∧ ¬(intPart.isEmpty ∧ fracPart.isEmpty) then
      some (natOfDigits (intPart ++ fracPart), fracPart.length)
    else
      none
  | _ => none

/-- Discrete part of Python `float(s)` on a stripped string: optional sign,
decimal mantissa, optional `e`/`E` exponent.  Returns
`(negative, mantissa digits, fractional digit count, exponent)`; `none`
where Python raises `ValueError`. -/
def pyFloatParse? (s : String) : Option (Bool × ℕ × ℕ × ℤ) :=
  let (neg, cs) := splitSign s.data
  let mant := cs.takeWhile (fun c => !(c == 'e' || c == 'E'))
  let rest := cs.dropWhile (fun c => !(c == 'e' || c == 'E'))
  match parseMantissa? mant with
  | none => none
  | some (m, k) =>
    match rest with
    | [] => some (neg, m, k, 0)
    | _ :: er =>
      let (eneg, ed) := splitSign er
      if ed.isEmpty ∨ ¬(ed.all Char.isDigit) then none
      else some (neg, m, k, if eneg then -(natOfDigits ed : ℤ) else (natOfDigits ed : ℤ))

/-- Numeric value of a parsed float literal:
`± mantissa × 10 ^ (exponent − fractional digits)`. -/
def ratOfParts (p : Bool × ℕ × ℕ × ℤ) : ℚ :=
  (if p.1 then -(p.2.1 : ℚ) else (p.2.1 : ℚ)) * (10 : ℚ) ^ (p.2.2.2 - (p.2.2.1 : ℤ))

/-- Python `float(s)` on a stripped string (the special forms `inf`, `nan`
and underscore separators are not modelled). -/
def pyFloat? (s : String) : Option ℚ :=
  (pyFloatParse? s).map ratOfParts

/-- Python `int(q)` on a float: truncation toward zero. -/
def pyInt (q : ℚ) : ℤ :=
  if 0 ≤ q then ⌊q⌋ else ⌈q⌉

/-- Python `max(a, b)`: returns `b` exactly when `a < b`. -/
def pyMax (a b : ℚ) : ℚ :=
  if a < b then b else a

/-- Python `min(a, b)`: returns `b` exactly when `b < a`. -/
def pyMin (a b : ℚ) : ℚ :=
  if b < a then b else a

theorem pyMax_eq_max (a b : ℚ) : pyMax a b = max a b := by
  unfold pyMax
  rcases lt_trichotomy a b with h | h | h
  · simp [h, max_eq_right h.le]
  · simp [h, max_self]
  · simp [not_lt_of_gt h, max_eq_left h.le]

theorem pyMin_eq_min (a b : ℚ) : pyMin a b = min a b := by
  unfold pyMin
  rcases lt_trichotomy b a with h | h | h
  · simp [h, min_eq_right h.le]
  · simp [h, min_self]
  · simp [not_lt_of_gt h, min_eq_left h.le]

/-! ## Cell values and the cleaning helpers of `parser.py` -/

/-- A pandas cell value as seen by the cleaning helpers. -/
inductive PyVal where
  /-- A missing value (`NaN` / `None`), i.e. `pd.isna` holds. -/
  | na
  /-- An `int` or `float` cell. -/
  | num (q : ℚ)
  /-- A string cell. -/
  | str (s : String)
  /-- Any other Python object. -/
  | other
deriving DecidableEq

/-- `clean_percentage` from `parser.py`: remove `%` and `,`, strip, parse as
float; missing or unparseable values become `None`. -/
def clean_percentage : PyVal → Option ℚ
  | .na => none
  | .num q => some q
  | .str v => pyFloat? (pyStrip (removeChar ',' (removeChar '%' v)))
  | .other => none

/-- `clean_currency` from `parser.py`: remove `$` and `,`, strip, parse as
float; missing or unparseable values become `0.0`. -/
def clean_currency : PyVal → ℚ
  | .na => 0
  | .num q => q
  | .str v => (pyFloat? (pyStrip (removeChar ',' (removeChar '$' v)))).getD 0
  | .other => 0

/-- `clean_integer` from `parser.py`: remove `,`, strip, parse as float and
truncate with `int(...)`; missing or unparseable values become `0`. -/
def clean_integer : PyVal → ℤ
  | .na => 0
  | .num q => pyInt q
  | .str v => ((pyFloat? (pyStrip (removeChar ',' v))).map pyInt).getD 0
  | .other => 0

/-- `is_asin` from `parser.py`: after stripping and lower-casing, the value
starts with `"b0"` and has exactly 10 characters. -/
def is_asin (value : String) : Bool :=
  let v := pyLower (pyStrip value)
  pyStartsWith v "b0" && pyLen v == 10

example : is_asin "B012345678" = true := by decide
example : is_asin "b0abcdefgh" = true := by decide
example : is_asin "running shoes" = false := by decide
example : is_asin "b0x" = false := by decide
example : clean_currency (.str " $1,234.50 ") = 1234.5 := by
  have h : pyFloatParse? (pyStrip (removeChar ',' (removeChar '$' " $1,234.50 ")))
      = some (false, 123450, 2, 0) := by decide
  simp [clean_currency, pyFloat?, h, ratOfParts]
  norm_num
example : clean_currency (.str "-5") = -5 := by
  have h : pyFloatParse? (pyStrip (removeChar ',' (removeChar '$' "-5")))
      = some (true, 5, 0, 0) := by decide
  simp [clean_currency, pyFloat?, h, ratOfParts]
example : clean_currency (.str "oops") = 0 := by
  have h : pyFloatParse? (pyStrip (removeChar ',' (removeChar '$' "oops"))) = none := by decide
  simp [clean_currency, pyFloat?, h]
example : clean_percentage (.str "12.5%") = some 12.5 := by
  have h : pyFloatParse? (pyStrip (removeChar ',' (removeChar '%' "12.5%")))
      = some (false, 125, 1, 0) := by decide
  simp [clean_percentage, pyFloat?, h, ratOfParts]
  norm_num
example : clean_integer (.str "1,234") = 1234 := by
  have h : pyFloatParse? (pyStrip (removeChar ',' "1,234")) = some (false, 1234, 0, 0) := by
    decide
  norm_num [clean_integer, pyFloat?, h, ratOfParts, pyInt]

/-! ## Stable sorting by a rational key

Python's `sorted(l, key=k)` and `sorted(l, key=k, reverse=True)` are stable:
elements with equal keys keep their original relative order.  Insertion sort
from the right with the conditions below has exactly this behaviour. -/

/-- Insert `x` (an element originally to the left of everything in `l`) into
the descending-sorted list `l`, before the first element whose key is not
larger. -/
def insertDescBy (key : α → ℚ) (x : α) : List α → List α
  | [] => [x]
  | y :: ys => if key y ≤ key x then x :: y :: ys else y :: insertDescBy key x ys

/-- Python `sorted(l, key=key, reverse=True)`. -/
def sortDescBy (key : α → ℚ) : List α → List α
  | [] => []
  | x :: xs => insertDescBy key x (sortDescBy key xs)

/-- Insert `x` into the ascending-sorted list `l`, before the first element
whose key is not smaller. -/
def insertAscBy (key : α → ℚ) (x : α) : List α → List α
  | [] => [x]
  | y :: ys => if key x ≤ key y then x :: y :: ys else y :: insertAscBy key x ys

/-- Python `sorted(l, key=key)`. -/
def sortAscBy (key : α → ℚ) : List α → List α
  | [] => []
  | x :: xs => insertAscBy key x (sortAscBy key xs)

theorem mem_insertDescBy {key : α → ℚ} {x a : α} {l : List α} :
    a ∈ insertDescBy key x l ↔ a = x ∨ a ∈ l := by
  induction l with
  | nil => simp [insertDescBy]
  | cons y ys ih =>
    by_cases h : key y ≤ key x
    · simp [insertDescBy, h]
    · simp only [insertDescBy, if_neg h, List.mem_cons, ih]
      tauto

theorem mem_sortDescBy {key : α → ℚ} {a : α} {l : List α} :
    a ∈ sortDescBy key l ↔ a ∈ l := by
  induction l with
  | nil => simp [sortDescBy]
  | cons x xs ih => simp [sortDescBy, mem_insertDescBy, ih]

theorem pairwise_insertDescBy {key : α → ℚ} {x : α} {l : List α}
    (h : l.Pairwise (fun a b => key b ≤ key a)) :
    (insertDescBy key x l).Pairwise (fun a b => key b ≤ key a) := by
  induction l with
  | nil => simp [insertDescBy]
  | cons y ys ih =>
    rcases List.pairwise_cons.mp h with ⟨hy, hys⟩
    by_cases hxy : key y ≤ key x
    · rw [insertDescBy, if_pos hxy]
      refine List.pairwise_cons.mpr ⟨?_, h⟩
      intro b hb
      rcases List.mem_cons.mp hb with rfl | hb
      · exact hxy
      · exact le_trans (hy b hb) hxy
    · rw [insertDescBy, if_neg hxy]
      refine List.pairwise_cons.mpr ⟨?_, ih hys⟩
      intro b hb
      rcases mem_insertDescBy.mp hb with rfl | hb
      · exact le_of_lt (lt_of_not_le hxy)
      · exact hy b hb

theorem pairwise_sortDescBy {key : α → ℚ} {l : List α} :
    (sortDescBy key l).Pairwise (fun a b => key b ≤ key a) := by
  induction l with
  | nil => simp [sortDescBy]
  | cons x xs ih => exact pairwise_insertDescBy ih

theorem mem_insertAscBy {key : α → ℚ} {x a : α} {l : List α} :
    a ∈ insertAscBy key x l ↔ a = x ∨ a ∈ l := by
  induction l with
  | nil => simp [insertAscBy]
  | cons y ys ih =>
    by_cases h : key x ≤ key y
    · simp [insertAscBy, h]
    · simp only [insertAscBy, if_neg h, List.mem_cons, ih]
      tauto

theorem mem_sortAscBy {key : α → ℚ} {a : α} {l : List α} :
    a ∈ sortAscBy key l ↔ a ∈ l := by
  induction l with
  | nil => simp [sortAscBy]
  | cons x xs ih => simp [sortAscBy, mem_insertAscBy, ih]

theorem pairwise_insertAscBy {key : α → ℚ} {x : α} {l : List α}
    (h : l.Pairwise (fun a b => key a ≤ key b)) :
    (insertAscBy key x l).Pairwise (fun a b => key a ≤ key b) := by
  induction l with
  | nil => simp [insertAscBy]
  | cons y ys ih =>
    rcases List.pairwise_cons.mp h with ⟨hy, hys⟩
    by_cases hxy : key x ≤ key y
    · rw [insertAscBy, if_pos hxy]
      refine List.pairwise_cons.mpr ⟨?_, h⟩
      intro b hb
      rcases List.mem_cons.mp hb with rfl | hb
      · exact hxy
      · exact le_trans hxy (hy b hb)
    · rw [insertAscBy, if_neg hxy]
      refine List.pairwise_cons.mpr ⟨?_, ih hys⟩
      intro b hb
      rcases mem_insertAscBy.mp hb with rfl | hb
      · exact le_of_lt (lt_of_not_le hxy)
      · exact hy b hb

theorem pairwise_sortAscBy {key : α → ℚ} {l : List α} :
    (sortAscBy key l).Pairwise (fun a b => key a ≤ key b) := by
  induction l with
  | nil => simp [sortAscBy]
  | cons x xs ih => exact pairwise_insertAscBy ih

/-! ## `analyze_bleeding_spend` (`optimization.py`)

A normalized performance dataset is modelled as a list of rows exposing the
columns `analyze_bleeding_spend` requires (`Spend`, `Sales`, `Clicks`,
`Match Type`); when any of them is absent the function returns `[]` without
looking at the rows, so nothing about that early exit is lost by assuming
them present.  The optional text columns (`Customer Search Term`,
`Campaign Name`, `Ad Group Name`) and the `Targeting` cell are
`Option`-valued, `none` standing for an absent column (`row.get` default) or
a missing cell; presence of the whole `Targeting` column is the
`hasTargeting` flag, mirroring the `'Targeting' in df.columns` test. -/

/-- One row of a normalized search-term performance dataset. -/
structure STRRow where
  searchTerm : Option String
  campaignName : Option String
  adGroupName : Option String
  matchType : String
  targeting : Option String
  spend : ℚ
  sales : ℚ
  clicks : ℤ
deriving DecidableEq

/-- A normalized performance dataset for `analyze_bleeding_spend`. -/
structure STRDF where
  rows : List STRRow
  hasTargeting : Bool
deriving DecidableEq

/-- The pandas test `df['Targeting'].str.lower().str.startswith('b0',
na=False)` on one cell: `NaN` counts as `False`. -/
def targetingStartsB0 : Option String → Bool
  | none => false
  | some t => pyStartsWith (pyLower t) "b0"

/-- The boolean row mask of `analyze_bleeding_spend`: spend, zero sales,
clicks and match-type conditions, and (only when the `Targeting` column
exists) exclusion of values starting with `b0`. -/
def bleedingMask (min_spend : ℚ) (min_clicks : ℤ) (hasT : Bool) (r : STRRow) : Bool :=
  decide (min_spend ≤ r.spend) && decide (r.sales = 0) && decide (min_clicks ≤ r.clicks) &&
    decide (r.matchType ≠ "Exact") && !(hasT && targetingStartsB0 r.targeting)

/-- The `BleedingSpendItem` record of `schemas.py` (the optional ID fields
attached later by enrichment are not part of this rule). -/
structure BleedingSpendItem where
  id : ℕ
  search_term : String
  campaign_name : String
  ad_group_name : String
  match_type : String
  spend : ℚ
  clicks : ℤ
  severity_score : ℚ
  action_type : String
deriving DecidableEq

/-- Construction of one `BleedingSpendItem` from a selected row (`idx` is the
dataframe index of the row). -/
def mkBleedingItem (i : ℕ) (r : STRRow) : BleedingSpendItem :=
  { id := i
    search_term := r.searchTerm.getD "Unknown"
    campaign_name := r.campaignName.getD "Unknown"
    ad_group_name := r.adGroupName.getD "Unknown"
    match_type := r.matchType
    spend := r.spend
    clicks := r.clicks
    severity_score := r.spend * (r.clicks : ℚ)
    action_type := "Negative" }

/-- `analyze_bleeding_spend` from `optimization.py`: filter by the mask,
build one item per selected row (severity = spend × clicks), sort by
severity descending. -/
def analyze_bleeding_spend (df : STRDF) (min_spend : ℚ) (min_clicks : ℤ) :
    List BleedingSpendItem :=
  sortDescBy BleedingSpendItem.severity_score
    (((df.rows.enum).filter
        (fun p => bleedingMask min_spend min_clicks df.hasTargeting p.2)).map
      (fun p => mkBleedingItem p.1 p.2))

theorem bleedingMask_eq_true {ms : ℚ} {mc : ℤ} {r : STRRow} :
    bleedingMask ms mc true r = true ↔
      ms ≤ r.spend ∧ r.sales = 0 ∧ mc ≤ r.clicks ∧ r.matchType ≠ "Exact" ∧
        targetingStartsB0 r.targeting = false := by
  simp [bleedingMask, and_assoc, Bool.not_eq_true']

/-- A row matching the spec's example except that its targeting expression is
the 3-character string `"b0x"`: it starts with `b0` but is not a 10-character
product identifier. -/
def shortB0Row : STRRow :=
  { searchTerm := some "kitchen knife"
    campaignName := some "Camp A"
    adGroupName := some "AG 1"
    matchType := "Broad"
    targeting := some "b0x"
    spend := 20
    sales := 0
    clicks := 8 }

/-- C2, counterexample: the claim requires a flagged row whenever the
targeted expression is not a 10-character `b0…` product identifier, but the
code's filter only tests the `b0` prefix: the row with targeting `"b0x"`
(not an ASIN by the 10-character test `is_asin`) satisfies every other
condition — spend 20 ≥ 10, sales 0, clicks 8 ≥ 5, match type `"Broad"` —
yet `analyze_bleeding_spend` returns no item for it. -/
theorem bleeding_spend_length_counterexample :
    is_asin "b0x" = false ∧
    analyze_bleeding_spend ⟨[shortB0Row], true⟩ 10 5 = [] := by
  constructor
  · decide
  · have ht : targetingStartsB0 shortB0Row.targeting = true := by decide
    have hm : bleedingMask 10 5 true shortB0Row = false := by
      simp [bleedingMask, ht]
    simp [analyze_bleeding_spend, List.enum, List.enumFrom, hm, sortDescBy]

/-- C2 (amended): for a normalized performance dataset exposing `Targeting`,
`analyze_bleeding_spend` emits an item *iff* its row satisfies spend ≥
`min_spend`, sales = 0, clicks ≥ `min_clicks`, match type ≠ `"Exact"`, and
the targeting expression does not start with `"b0"` case-insensitively
(regardless of its length — the function does not apply the 10-character
`is_asin` test the claim describes); each item carries severity score =
spend × clicks and action `"Negative"`, and the result is sorted by severity
score descending. -/
theorem bleeding_spend_flag_iff (df : STRDF) (ms : ℚ) (mc : ℤ)
    (hT : df.hasTargeting = true) :
    (∀ it : BleedingSpendItem,
        it ∈ analyze_bleeding_spend df ms mc ↔
          ∃ p ∈ df.rows.enum,
            (ms ≤ p.2.spend ∧ p.2.sales = 0 ∧ mc ≤ p.2.clicks ∧
              p.2.matchType ≠ "Exact" ∧ targetingStartsB0 p.2.targeting = false) ∧
            it = mkBleedingItem p.1 p.2) ∧
    (∀ it ∈ analyze_bleeding_spend df ms mc,
        it.severity_score = it.spend * (it.clicks : ℚ) ∧ it.action_type = "Negative") ∧
    (analyze_bleeding_spend df ms mc).Pairwise
      (fun a b => b.severity_score ≤ a.severity_score) := by
  have hmem : ∀ it : BleedingSpendItem,
      it ∈ analyze_bleeding_spend df ms mc ↔
        ∃ p ∈ df.rows.enum,
          (ms ≤ p.2.spend ∧ p.2.sales = 0 ∧ mc ≤ p.2.clicks ∧
            p.2.matchType ≠ "Exact" ∧ targetingStartsB0 p.2.targeting = false) ∧
          it = mkBleedingItem p.1 p.2 := by
    intro it
    rw [analyze_bleeding_spend, mem_sortDescBy, List.mem_map]
    constructor
    · rintro ⟨p, hp, rfl⟩
      rcases List.mem_filter.mp hp with ⟨hmem, hmask⟩
      rw [hT] at hmask
      exact ⟨p, hmem, bleedingMask_eq_true.mp hmask, rfl⟩
    · rintro ⟨p, hmem, hcond, rfl⟩
      refine ⟨p, List.mem_filter.mpr ⟨hmem, ?_⟩, rfl⟩
      rw [hT]
      exact bleedingMask_eq_true.mpr hcond
  refine ⟨hmem, ?_, pairwise_sortDescBy⟩
  intro it hit
  rcases (hmem it).mp hit with ⟨p, _, _, rfl⟩
  simp [mkBleedingItem]

/-- A row realizing the spec's positive example: spend 20, sales 0, clicks 8,
match type `"Broad"`, ordinary keyword targeting. -/
def broadRow : STRRow :=
  { searchTerm := some "running shoes"
    campaignName := some "Camp A"
    adGroupName := some "AG 1"
    matchType := "Broad"
    targeting := some "running shoes"
    spend := 20
    sales := 0
    clicks := 8 }

/-- Witness for C2: on the one-row dataset with spend 20, sales 0, clicks 8
and match type `"Broad"`, the characterization produces the flagged item,
whose severity score is 160. -/
theorem bleeding_spend_flag_iff_witness :
    mkBleedingItem 0 broadRow ∈ analyze_bleeding_spend ⟨[broadRow], true⟩ 10 5 ∧
    (mkBleedingItem 0 broadRow).severity_score = 160 := by
  constructor
  · refine ((bleeding_spend_flag_iff ⟨[broadRow], true⟩ 10 5 rfl).1 _).mpr
      ⟨(0, broadRow), ?_, ⟨?_, ?_, ?_, ?_, ?_⟩, rfl⟩
    · simp [List.enum, List.enumFrom]
    · norm_num [broadRow]
    · norm_num [broadRow]
    · decide
    · decide
    · decide
  · norm_num [mkBleedingItem, broadRow]

/-! ## `analyze_high_acos` (`optimization.py`)

The dataset is modelled as a list of rows carrying every column the function
reads: the sums fall back to `0` for an absent column and the per-row
metrics fall back to `0` through `row.get(..., 0)`, so a dataset-wide absent
numeric column is the dataset whose rows all carry `0` in that field.  The
two early exits (`df` empty, `ACOS`/`Spend` column missing) return `[]` and
are outside the claims about selected rows. -/

/-- One row of a normalized performance dataset as read by
`analyze_high_acos`. -/
structure AcosRow where
  searchTerm : Option String
  campaignName : Option String
  targeting : Option String
  matchType : Option String
  impressions : ℤ
  clicks : ℤ
  spend : ℚ
  sales : ℚ
  orders : ℤ
  acos : ℚ
  ctr : ℚ
  cpc : ℚ
  cvr : ℚ
deriving DecidableEq

/-- `df['Impressions'].sum()`. -/
def totalImpressions (rows : List AcosRow) : ℤ :=
  (rows.map AcosRow.impressions).sum

/-- `df['Clicks'].sum()`. -/
def totalClicksA (rows : List AcosRow) : ℤ :=
  (rows.map AcosRow.clicks).sum

/-- `df['Spend'].sum()`. -/
def totalSpendA (rows : List AcosRow) : ℚ :=
  (rows.map AcosRow.spend).sum

/-- `df['Orders'].sum()`. -/
def totalOrdersA (rows : List AcosRow) : ℤ :=
  (rows.map AcosRow.orders).sum

/-- Account average CTR: total clicks / total impressions, `0` when the
denominator is not positive. -/
def avgCtr (rows : List AcosRow) : ℚ :=
  if 0 < totalImpressions rows then
    (totalClicksA rows : ℚ) / (totalImpressions rows : ℚ)
  else 0

/-- Account average CPC: total spend / total clicks, `0` when the
denominator is not positive. -/
def avgCpc (rows : List AcosRow) : ℚ :=
  if 0 < totalClicksA rows then totalSpendA rows / (totalClicksA rows : ℚ) else 0

/-- Account average CVR: total orders / total clicks, `0` when the
denominator is not positive. -/
def avgCvr (rows : List AcosRow) : ℚ :=
  if 0 < totalClicksA rows then (totalOrdersA rows : ℚ) / (totalClicksA rows : ℚ)
  else 0

/-- The `HighACOSItem` record of `schemas.py` (without the enrichment-only
ID fields). -/
structure HighACOSItem where
  id : ℕ
  search_term : String
  targeting : Option String
  match_type : Option String
  campaign_name : String
  acos : ℚ
  spend : ℚ
  sales : ℚ
  root_cause : String
  value : ℚ
  avg_value : ℚ
  action_type : String
deriving DecidableEq

/-- Construction of one `HighACOSItem` from a selected row, with the fixed
root-cause precedence: Low CVR, then High CPC, then Low CTR, then General
Efficiency. -/
def mkHighAcosItem (aCtr aCpc aCvr : ℚ) (i : ℕ) (r : AcosRow) : HighACOSItem :=
  let d : String × ℚ × ℚ × String :=
    if r.cvr < aCvr * 0.7 then ("Low CVR", r.cvr, aCvr, "Review Listing/Target")
    else if aCpc * 1.3 < r.cpc then ("High CPC", r.cpc, aCpc, "Bid Down")
    else if r.ctr < aCtr * 0.7 then ("Low CTR", r.ctr, aCtr, "Negative")
    else ("General Efficiency", 0, 0, "Optimization")
  { id := i
    search_term := r.searchTerm.getD "Unknown"
    targeting := r.targeting
    match_type := r.matchType
    campaign_name := r.campaignName.getD "Unknown"
    acos := r.acos
    spend := r.spend
    sales := r.sales
    root_cause := d.1
    value := d.2.1
    avg_value := d.2.2.1
    action_type := d.2.2.2 }

/-- `analyze_high_acos` from `optimization.py`: compute account averages,
select rows with ACOS above target and positive spend, diagnose each, sort
by spend descending. -/
def analyze_high_acos (rows : List AcosRow) (target_acos : ℚ) : List HighACOSItem :=
  sortDescBy HighACOSItem.spend
    (((rows.enum).filter
        (fun p => decide (target_acos < p.2.acos) && decide (0 < p.2.spend))).map
      (fun p => mkHighAcosItem (avgCtr rows) (avgCpc rows) (avgCvr rows) p.1 p.2))

/-- C3: for every selected high-ACOS row (ACOS > target, spend > 0) the
emitted item follows the fixed precedence — CVR below 0.7× the account
average CVR gives "Low CVR"/"Review Listing/Target" (no condition on CPC, so
also when CPC is elevated); otherwise CPC above 1.3× average gives "High
CPC"/"Bid Down"; otherwise CTR below 0.7× average gives "Low
CTR"/"Negative"; otherwise "General Efficiency"/"Optimization" with value
and benchmark zero — and the account averages are total-based ratios whose
zero (or negative) denominators yield zero. -/
theorem high_acos_root_cause (rows : List AcosRow) (target : ℚ) (p : ℕ × AcosRow)
    (hmem : p ∈ rows.enum) (hacos : target < p.2.acos) (hspend : 0 < p.2.spend) :
    mkHighAcosItem (avgCtr rows) (avgCpc rows) (avgCvr rows) p.1 p.2 ∈
      analyze_high_acos rows target ∧
    (p.2.cvr < avgCvr rows * 0.7 →
      (mkHighAcosItem (avgCtr rows) (avgCpc rows) (avgCvr rows) p.1 p.2).root_cause
          = "Low CVR" ∧
        (mkHighAcosItem (avgCtr rows) (avgCpc rows) (avgCvr rows) p.1 p.2).action_type
          = "Review Listing/Target" ∧
        (mkHighAcosItem (avgCtr rows) (avgCpc rows) (avgCvr rows) p.1 p.2).value
          = p.2.cvr ∧
        (mkHighAcosItem (avgCtr rows) (avgCpc rows) (avgCvr rows) p.1 p.2).avg_value
          = avgCvr rows) ∧
    (¬ p.2.cvr < avgCvr rows * 0.7 → avgCpc rows * 1.3 < p.2.cpc →
      (mkHighAcosItem (avgCtr rows) (avgCpc rows) (avgCvr rows) p.1 p.2).root_cause
          = "High CPC" ∧
        (mkHighAcosItem (avgCtr rows) (avgCpc rows) (avgCvr rows) p.1 p.2).action_type
          = "Bid Down") ∧
    (¬ p.2.cvr < avgCvr rows * 0.7 → ¬ avgCpc rows * 1.3 < p.2.cpc →
        p.2.ctr < avgCtr rows * 0.7 →
      (mkHighAcosItem (avgCtr rows) (avgCpc rows) (avgCvr rows) p.1 p.2).root_cause
          = "Low CTR" ∧
        (mkHighAcosItem (avgCtr rows) (avgCpc rows) (avgCvr rows) p.1 p.2).action_type
          = "Negative") ∧
    (¬ p.2.cvr < avgCvr rows * 0.7 → ¬ avgCpc rows * 1.3 < p.2.cpc →
        ¬ p.2.ctr < avgCtr rows * 0.7 →
      (mkHighAcosItem (avgCtr rows) (avgCpc rows) (avgCvr rows) p.1 p.2).root_cause
          = "General Efficiency" ∧
        (mkHighAcosItem (avgCtr rows) (avgCpc rows) (avgCvr rows) p.1 p.2).action_type
          = "Optimization" ∧
        (mkHighAcosItem (avgCtr rows) (avgCpc rows) (avgCvr rows) p.1 p.2).value = 0 ∧
        (mkHighAcosItem (avgCtr rows) (avgCpc rows) (avgCvr rows) p.1 p.2).avg_value
          = 0) ∧
    avgCvr rows
        = (if 0 < totalClicksA rows then (totalOrdersA rows : ℚ) / (totalClicksA rows : ℚ)
          else 0) ∧
    avgCpc rows
        = (if 0 < totalClicksA rows then totalSpendA rows / (totalClicksA rows : ℚ)
          else 0) ∧
    avgCtr rows
        = (if 0 < totalImpressions rows then
            (totalClicksA rows : ℚ) / (totalImpressions rows : ℚ)
          else 0) := by
  refine ⟨?_, ?_, ?_, ?_, ?_, rfl, rfl, rfl⟩
  · rw [analyze_high_acos, mem_sortDescBy, List.mem_map]
    refine ⟨p, List.mem_filter.mpr ⟨hmem, ?_⟩, rfl⟩
    simp [hacos, hspend]
  · intro h1
    simp [mkHighAcosItem, if_pos h1]
  · intro h1 h2
    simp [mkHighAcosItem, if_neg h1, if_pos h2]
  · intro h1 h2 h3
    simp [mkHighAcosItem, if_neg h1, if_neg h2, if_pos h3]
  · intro h1 h2 h3
    simp [mkHighAcosItem, if_neg h1, if_neg h2, if_neg h3]

/-- The row of the spec's precedence example: on a one-row account it yields
average CTR 0.1, average CPC 1 and average CVR 0.05, while its own CVR 0.02
is below 0.7×0.05 and its CPC 2 is above 1.3×1. -/
def lowCvrRow : AcosRow :=
  { searchTerm := some "slow seller"
    campaignName := some "Camp A"
    targeting := some "slow seller"
    matchType := some "Broad"
    impressions := 1000
    clicks := 100
    spend := 100
    sales := 200
    orders := 5
    acos := 50
    ctr := 0.1
    cpc := 2
    cvr := 0.02 }

/-- Witness for C3: on the one-row dataset above, the selected row is
diagnosed "Low CVR"/"Review Listing/Target" although its CPC also exceeds
1.3× the average CPC — the CVR check wins. -/
theorem high_acos_root_cause_witness :
    mkHighAcosItem (avgCtr [lowCvrRow]) (avgCpc [lowCvrRow]) (avgCvr [lowCvrRow])
        0 lowCvrRow ∈ analyze_high_acos [lowCvrRow] 30 ∧
    (mkHighAcosItem (avgCtr [lowCvrRow]) (avgCpc [lowCvrRow]) (avgCvr [lowCvrRow])
        0 lowCvrRow).root_cause = "Low CVR" ∧
    (mkHighAcosItem (avgCtr [lowCvrRow]) (avgCpc [lowCvrRow]) (avgCvr [lowCvrRow])
        0 lowCvrRow).action_type = "Review Listing/Target" ∧
    avgCpc [lowCvrRow] * 1.3 < lowCvrRow.cpc := by
  have hcpc : avgCpc [lowCvrRow] * 1.3 < lowCvrRow.cpc := by
    norm_num [avgCpc, totalClicksA, totalSpendA, lowCvrRow]
  have hcvr : lowCvrRow.cvr < avgCvr [lowCvrRow] * 0.7 := by
    norm_num [avgCvr, totalClicksA, totalOrdersA, lowCvrRow]
  obtain ⟨hm, hlow, -, -, -, -, -, -⟩ :=
    high_acos_root_cause [lowCvrRow] 30 (0, lowCvrRow)
      (by simp [List.enum, List.enumFrom])
      (by norm_num [lowCvrRow]) (by norm_num [lowCvrRow])
  obtain ⟨h1, h2, -, -⟩ := hlow hcvr
  exact ⟨hm, h1, h2, hcpc⟩

/-! ## `calculate_health_score` (`optimization.py`) -/

/-- One row as read by `calculate_health_score` (`Spend`, `Sales`,
`Match Type`). -/
structure HSRow where
  spend : ℚ
  sales : ℚ
  matchType : String
deriving DecidableEq

/-- A performance dataset for `calculate_health_score`: its rows plus the
presence of each required column. -/
structure HSDF where
  rows : List HSRow
  hasSpend : Bool
  hasSales : Bool
  hasMatchType : Bool
deriving DecidableEq

/-- The `details` dictionary of a computed health score. -/
structure HealthDetails where
  wasted_spend : ℚ
  waste_ratio : ℚ
  overall_acos : ℚ
deriving DecidableEq

/-- The `HealthScore` record of `schemas.py`; `details` is `none` on the
degenerate paths that return the empty dictionary. -/
structure HealthScore where
  score : ℤ
  spend_efficiency_score : ℤ
  acos_stability_score : ℤ
  exact_match_score : ℤ
  details : Option HealthDetails
deriving DecidableEq

/-- The all-zero health score returned for an empty dataset or missing
columns. -/
def zeroHealthScore : HealthScore :=
  { score := 0
    spend_efficiency_score := 0
    acos_stability_score := 0
    exact_match_score := 0
    details := none }

/-- `df['Spend'].sum()`. -/
def totalSpendH (rows : List HSRow) : ℚ :=
  (rows.map HSRow.spend).sum

/-- `df['Sales'].sum()`. -/
def totalSalesH (rows : List HSRow) : ℚ :=
  (rows.map HSRow.sales).sum

/-- `df[df['Sales'] == 0]['Spend'].sum()`: spend of zero-sales rows. -/
def wastedSpendH (rows : List HSRow) : ℚ :=
  ((rows.filter (fun r => decide (r.sales = 0))).map HSRow.spend).sum

/-- `df[df['Match Type'] == 'Exact']['Spend'].sum()`. -/
def exactSpendH (rows : List HSRow) : ℚ :=
  ((rows.filter (fun r => decide (r.matchType = "Exact"))).map HSRow.spend).sum

/-- `waste_ratio`: wasted spend over total spend, `0` when total spend is
not positive. -/
def wasteRatioH (rows : List HSRow) : ℚ :=
  if 0 < totalSpendH rows then wastedSpendH rows / totalSpendH rows else 0

/-- `exact_share`: exact-match spend over total spend, `0` when total spend
is not positive. -/
def exactShareH (rows : List HSRow) : ℚ :=
  if 0 < totalSpendH rows then exactSpendH rows / totalSpendH rows else 0

/-- `overall_acos`: total spend over total sales × 100, `100` when total
sales is not positive. -/
def overallAcosH (rows : List HSRow) : ℚ :=
  if 0 < totalSalesH rows then totalSpendH rows / totalSalesH rows * 100 else 100

/-- `efficiency_score = max(0, 100 - waste_ratio * 100)`. -/
def efficiencyScoreH (rows : List HSRow) : ℚ :=
  pyMax 0 (100 - wasteRatioH rows * 100)

/-- `exact_score = min(100, exact_share * 100 * 1.5)`. -/
def exactScoreH (rows : List HSRow) : ℚ :=
  pyMin 100 (exactShareH rows * 100 * 1.5)

/-- `acos_score = max(0, 100 - overall_acos)`. -/
def acosScoreH (rows : List HSRow) : ℚ :=
  pyMax 0 (100 - overallAcosH rows)

/-- Main body of `calculate_health_score` once the dataset is nonempty and
exposes the required columns: the two ratio scores, the ACOS score, and the
weighted total truncated with `int(...)`. -/
def healthScoreCore (rows : List HSRow) : HealthScore :=
  { score := pyInt (efficiencyScoreH rows * 0.4 + exactScoreH rows * 0.3 +
      acosScoreH rows * 0.3)
    spend_efficiency_score := pyInt (efficiencyScoreH rows)
    acos_stability_score := pyInt (acosScoreH rows)
    exact_match_score := pyInt (exactScoreH rows)
    details := some
      { wasted_spend := wastedSpendH rows
        waste_ratio := wasteRatioH rows
        overall_acos := overallAcosH rows } }

/-- `calculate_health_score` from `optimization.py`. -/
def calculate_health_score (df : HSDF) : HealthScore :=
  if df.rows.isEmpty then zeroHealthScore
  else if !(df.hasSpend && df.hasSales && df.hasMatchType) then zeroHealthScore
  else healthScoreCore df.rows

theorem totalSpendH_nonneg {rows : List HSRow} (h : ∀ r ∈ rows, 0 ≤ r.spend) :
    0 ≤ totalSpendH rows := by
  apply List.sum_nonneg
  intro x hx
  rcases List.mem_map.mp hx with ⟨r, hr, rfl⟩
  exact h r hr

theorem wastedSpendH_nonneg {rows : List HSRow} (h : ∀ r ∈ rows, 0 ≤ r.spend) :
    0 ≤ wastedSpendH rows := by
  apply List.sum_nonneg
  intro x hx
  rcases List.mem_map.mp hx with ⟨r, hr, rfl⟩
  exact h r (List.mem_filter.mp hr).1

theorem exactSpendH_nonneg {rows : List HSRow} (h : ∀ r ∈ rows, 0 ≤ r.spend) :
    0 ≤ exactSpendH rows := by
  apply List.sum_nonneg
  intro x hx
  rcases List.mem_map.mp hx with ⟨r, hr, rfl⟩
  exact h r (List.mem_filter.mp hr).1

theorem wasteRatioH_nonneg {rows : List HSRow} (h : ∀ r ∈ rows, 0 ≤ r.spend) :
    0 ≤ wasteRatioH rows := by
  rw [wasteRatioH]
  split
  · exact div_nonneg (wastedSpendH_nonneg h) (le_of_lt (by assumption))
  · exact le_refl 0

theorem exactShareH_nonneg {rows : List HSRow} (h : ∀ r ∈ rows, 0 ≤ r.spend) :
    0 ≤ exactShareH rows := by
  rw [exactShareH]
  split
  · exact div_nonneg (exactSpendH_nonneg h) (le_of_lt (by assumption))
  · exact le_refl 0

theorem overallAcosH_nonneg {rows : List HSRow} (h : ∀ r ∈ rows, 0 ≤ r.spend) :
    0 ≤ overallAcosH rows := by
  rw [overallAcosH]
  split
  · exact mul_nonneg (div_nonneg (totalSpendH_nonneg h) (le_of_lt (by assumption)))
      (by norm_num)
  · norm_num

theorem efficiencyScoreH_nonneg (rows : List HSRow) : 0 ≤ efficiencyScoreH rows := by
  rw [efficiencyScoreH, pyMax_eq_max]
  exact le_max_left 0 _

theorem efficiencyScoreH_le {rows : List HSRow} (h : ∀ r ∈ rows, 0 ≤ r.spend) :
    efficiencyScoreH rows ≤ 100 := by
  rw [efficiencyScoreH, pyMax_eq_max]
  have := wasteRatioH_nonneg h
  apply max_le (by norm_num)
  linarith

theorem exactScoreH_le (rows : List HSRow) : exactScoreH rows ≤ 100 := by
  rw [exactScoreH, pyMin_eq_min]
  exact min_le_left 100 _

theorem exactScoreH_nonneg {rows : List HSRow} (h : ∀ r ∈ rows, 0 ≤ r.spend) :
    0 ≤ exactScoreH rows := by
  rw [exactScoreH, pyMin_eq_min]
  have := exactShareH_nonneg h
  apply le_min (by norm_num)
  nlinarith

theorem acosScoreH_nonneg (rows : List HSRow) : 0 ≤ acosScoreH rows := by
  rw [acosScoreH, pyMax_eq_max]
  exact le_max_left 0 _

theorem acosScoreH_le {rows : List HSRow} (h : ∀ r ∈ rows, 0 ≤ r.spend) :
    acosScoreH rows ≤ 100 := by
  rw [acosScoreH, pyMax_eq_max]
  have := overallAcosH_nonneg h
  apply max_le (by norm_num)
  linarith

theorem pyInt_eq_floor {q : ℚ} (h : 0 ≤ q) : pyInt q = ⌊q⌋ := by
  rw [pyInt, if_pos h]

theorem pyInt_nonneg {q : ℚ} (h : 0 ≤ q) : 0 ≤ pyInt q := by
  rw [pyInt_eq_floor h]
  exact Int.le_floor.mpr (by exact_mod_cast h)

theorem pyInt_le_hundred {q : ℚ} (h0 : 0 ≤ q) (h : q ≤ 100) : pyInt q ≤ 100 := by
  rw [pyInt_eq_floor h0]
  have h2 : ⌊q⌋ ≤ ⌊(100 : ℚ)⌋ := Int.floor_le_floor h
  have h3 : ⌊(100 : ℚ)⌋ = 100 := by
    have : ((100 : ℤ) : ℚ) = (100 : ℚ) := by norm_num
    rw [← this, Int.floor_intCast]
  rw [h3] at h2
  exact h2

/-- C6, counterexample: on the two-row dataset (spend 3 / sales 100 / Exact,
spend 1 / sales 0 / Broad) the real-valued sub-scores are efficiency 75,
exact-match 100 and ACOS 96, so the claimed `round(0.4×75 + 0.3×100 +
0.3×96) = round(88.8)` is 89 — but the code truncates with `int(...)` and
reports 88. -/
theorem health_score_round_counterexample :
    (calculate_health_score ⟨[⟨3, 100, "Exact"⟩, ⟨1, 0, "Broad"⟩], true, true, true⟩).score
        = 88 ∧
    (calculate_health_score
        ⟨[⟨3, 100, "Exact"⟩, ⟨1, 0, "Broad"⟩], true, true, true⟩).spend_efficiency_score
        = 75 ∧
    (calculate_health_score
        ⟨[⟨3, 100, "Exact"⟩, ⟨1, 0, "Broad"⟩], true, true, true⟩).exact_match_score
        = 100 ∧
    (calculate_health_score
        ⟨[⟨3, 100, "Exact"⟩, ⟨1, 0, "Broad"⟩], true, true, true⟩).acos_stability_score
        = 96 ∧
    round ((0.4 : ℚ) * 75 + 0.3 * 100 + 0.3 * 96) = 89 := by
  have h1 : totalSpendH [⟨3, 100, "Exact"⟩, ⟨1, 0, "Broad"⟩] = 4 := by
    norm_num [totalSpendH]
  have h2 : totalSalesH [⟨3, 100, "Exact"⟩, ⟨1, 0, "Broad"⟩] = 100 := by
    norm_num [totalSalesH]
  have hf3 : ([⟨3, 100, "Exact"⟩, ⟨1, 0, "Broad"⟩] : List HSRow).filter
      (fun r => decide (r.sales = 0)) = [⟨1, 0, "Broad"⟩] := by decide
  have hf4 : ([⟨3, 100, "Exact"⟩, ⟨1, 0, "Broad"⟩] : List HSRow).filter
      (fun r => decide (r.matchType = "Exact")) = [⟨3, 100, "Exact"⟩] := by decide
  have h3 : wastedSpendH [⟨3, 100, "Exact"⟩, ⟨1, 0, "Broad"⟩] = 1 := by
    rw [wastedSpendH, hf3]
    norm_num
  have h4 : exactSpendH [⟨3, 100, "Exact"⟩, ⟨1, 0, "Broad"⟩] = 3 := by
    rw [exactSpendH, hf4]
    norm_num
  have heff : efficiencyScoreH [⟨3, 100, "Exact"⟩, ⟨1, 0, "Broad"⟩] = 75 := by
    norm_num [efficiencyScoreH, wasteRatioH, h1, h3, pyMax]
  have hex : exactScoreH [⟨3, 100, "Exact"⟩, ⟨1, 0, "Broad"⟩] = 100 := by
    norm_num [exactScoreH, exactShareH, h1, h4, pyMin]
  have hac : acosScoreH [⟨3, 100, "Exact"⟩, ⟨1, 0, "Broad"⟩] = 96 := by
    norm_num [acosScoreH, overallAcosH, h1, h2, pyMax]
  have hcalc : calculate_health_score
      ⟨[⟨3, 100, "Exact"⟩, ⟨1, 0, "Broad"⟩], true, true, true⟩
      = healthScoreCore [⟨3, 100, "Exact"⟩, ⟨1, 0, "Broad"⟩] := by
    simp [calculate_health_score]
  refine ⟨?_, ?_, ?_, ?_, ?_⟩
  · rw [hcalc]
    show pyInt _ = 88
    rw [heff, hex, hac]
    norm_num [pyInt]
  · rw [hcalc]
    show pyInt _ = 75
    rw [heff]
    norm_num [pyInt]
  · rw [hcalc]
    show pyInt _ = 100
    rw [hex]
    norm_num [pyInt]
  · rw [hcalc]
    show pyInt _ = 96
    rw [hac]
    norm_num [pyInt]
  · norm_num [round_eq]

/-- C6 (amended): for every nonempty dataset with the `Spend`, `Sales` and
`Match Type` columns and non-negative spend values, `calculate_health_score`
computes efficiency = max(0, 100 − waste ratio × 100), exact-match score =
min(100, exact share × 100 × 1.5), ACOS score = max(0, 100 − overall ACOS)
(with waste ratio and exact share 0 when total spend is not positive and
overall ACOS 100 when total sales is not positive), and reports the final
score as the weighted sum 0.4·efficiency + 0.3·exactShare + 0.3·acosScore
truncated with `int(...)` — i.e. its floor, the sum being non-negative — not
rounded to the nearest integer as the claim stated. -/
theorem health_score_truncated_formulas (df : HSDF)
    (hS : df.hasSpend = true) (hSa : df.hasSales = true) (hM : df.hasMatchType = true)
    (hne : df.rows ≠ []) (hsp : ∀ r ∈ df.rows, 0 ≤ r.spend) :
    calculate_health_score df =
      { score := ⌊efficiencyScoreH df.rows * 0.4 + exactScoreH df.rows * 0.3 +
          acosScoreH df.rows * 0.3⌋
        spend_efficiency_score := ⌊efficiencyScoreH df.rows⌋
        acos_stability_score := ⌊acosScoreH df.rows⌋
        exact_match_score := ⌊exactScoreH df.rows⌋
        details := some
          { wasted_spend := wastedSpendH df.rows
            waste_ratio := wasteRatioH df.rows
            overall_acos := overallAcosH df.rows } } ∧
    efficiencyScoreH df.rows = max 0 (100 - wasteRatioH df.rows * 100) ∧
    exactScoreH df.rows = min 100 (exactShareH df.rows * 100 * 1.5) ∧
    acosScoreH df.rows = max 0 (100 - overallAcosH df.rows) ∧
    wasteRatioH df.rows
      = (if 0 < totalSpendH df.rows then wastedSpendH df.rows / totalSpendH df.rows
        else 0) ∧
    overallAcosH df.rows
      = (if 0 < totalSalesH df.rows then totalSpendH df.rows / totalSalesH df.rows * 100
        else 100) := by
  have h1 : 0 ≤ efficiencyScoreH df.rows := efficiencyScoreH_nonneg df.rows
  have h2 : 0 ≤ exactScoreH df.rows := exactScoreH_nonneg hsp
  have h3 : 0 ≤ acosScoreH df.rows := acosScoreH_nonneg df.rows
  have h4 : 0 ≤ efficiencyScoreH df.rows * 0.4 + exactScoreH df.rows * 0.3 +
      acosScoreH df.rows * 0.3 := by positivity
  have hE : df.rows.isEmpty = false := by
    rw [List.isEmpty_eq_false]
    exact hne
  have hcalc : calculate_health_score df = healthScoreCore df.rows := by
    simp [calculate_health_score, hE, hS, hSa, hM]
  refine ⟨?_, by rw [efficiencyScoreH, pyMax_eq_max],
    by rw [exactScoreH, pyMin_eq_min], by rw [acosScoreH, pyMax_eq_max], rfl, rfl⟩
  rw [hcalc, healthScoreCore, pyInt_eq_floor h4, pyInt_eq_floor h1, pyInt_eq_floor h3,
    pyInt_eq_floor h2]

/-- Witness for C6: on the one-row dataset spend 10 / sales 20 / Exact the
amended formulas give efficiency 100, exact-match 100 and ACOS 50, and the
reported score is ⌊0.4×100 + 0.3×100 + 0.3×50⌋ = 85. -/
theorem health_score_truncated_formulas_witness :
    (calculate_health_score ⟨[⟨10, 20, "Exact"⟩], true, true, true⟩).score = 85 := by
  obtain ⟨hrec, -, -, -, -, -⟩ :=
    health_score_truncated_formulas ⟨[⟨10, 20, "Exact"⟩], true, true, true⟩
      rfl rfl rfl (by simp)
      (by
        intro r hr
        rcases List.mem_singleton.mp hr with rfl
        norm_num)
  rw [hrec]
  have heff : efficiencyScoreH [⟨10, 20, "Exact"⟩] = 100 := by
    norm_num [efficiencyScoreH, wasteRatioH, wastedSpendH, totalSpendH, List.filter,
      pyMax]
  have hex : exactScoreH [⟨10, 20, "Exact"⟩] = 100 := by
    norm_num [exactScoreH, exactShareH, exactSpendH, totalSpendH, List.filter, pyMin]
  have hac : acosScoreH [⟨10, 20, "Exact"⟩] = 50 := by
    norm_num [acosScoreH, overallAcosH, totalSpendH, totalSalesH, pyMax]
  show (⌊efficiencyScoreH [⟨10, 20, "Exact"⟩] * 0.4 + exactScoreH [⟨10, 20, "Exact"⟩]
      * 0.3 + acosScoreH [⟨10, 20, "Exact"⟩] * 0.3⌋ : ℤ) = 85
  rw [heff, hex, hac]
  norm_num

/-- C7: `calculate_health_score` is a total function whose results are
bounded — for non-negative spend and sales the final score and all three
sub-scores lie in [0, 100] — and the degenerate inputs (no rows, or a
missing required column) yield the all-zero health score instead of an
error.  Determinism and NaN-freedom are inherent: the embedding is a pure
total function into exact rationals/integers, the division guards being the
proved `wasteRatioH`/`overallAcosH` equations of `health_score_truncated_formulas`. -/
theorem health_score_bounds (df : HSDF) :
    ((∀ r ∈ df.rows, 0 ≤ r.spend ∧ 0 ≤ r.sales) →
      0 ≤ (calculate_health_score df).score ∧ (calculate_health_score df).score ≤ 100 ∧
      0 ≤ (calculate_health_score df).spend_efficiency_score ∧
      (calculate_health_score df).spend_efficiency_score ≤ 100 ∧
      0 ≤ (calculate_health_score df).acos_stability_score ∧
      (calculate_health_score df).acos_stability_score ≤ 100 ∧
      0 ≤ (calculate_health_score df).exact_match_score ∧
      (calculate_health_score df).exact_match_score ≤ 100) ∧
    (df.rows = [] → calculate_health_score df = zeroHealthScore) ∧
    (¬(df.hasSpend = true ∧ df.hasSales = true ∧ df.hasMatchType = true) →
      calculate_health_score df = zeroHealthScore) := by
  refine ⟨?_, ?_, ?_⟩
  · intro hnn
    by_cases hE : df.rows.isEmpty
    · simp [calculate_health_score, hE, zeroHealthScore]
    · by_cases hF : (df.hasSpend && df.hasSales && df.hasMatchType) = true
      · have hcalc : calculate_health_score df = healthScoreCore df.rows := by
          simp [calculate_health_score, hE, hF]
        have hsp : ∀ r ∈ df.rows, 0 ≤ r.spend := fun r hr => (hnn r hr).1
        have e1 := efficiencyScoreH_nonneg df.rows
        have e2 := efficiencyScoreH_le hsp
        have x1 := exactScoreH_nonneg hsp
        have x2 := exactScoreH_le df.rows
        have a1 := acosScoreH_nonneg df.rows
        have a2 := acosScoreH_le hsp
        rw [hcalc]
        refine ⟨pyInt_nonneg (by positivity), pyInt_le_hundred (by positivity)
            (by linarith), pyInt_nonneg e1, pyInt_le_hundred e1 e2,
          pyInt_nonneg a1, pyInt_le_hundred a1 a2, pyInt_nonneg x1,
          pyInt_le_hundred x1 x2⟩
      · have hF2 : (df.hasSpend && df.hasSales && df.hasMatchType) = false := by
          simpa using hF
        simp [calculate_health_score, hE, hF2, zeroHealthScore]
  · intro h
    simp [calculate_health_score, h, zeroHealthScore]
  · intro h
    have hF : (df.hasSpend && df.hasSales && df.hasMatchType) = false := by
      revert h
      cases df.hasSpend <;> cases df.hasSales <;> cases df.hasMatchType <;> simp
    by_cases hE : df.rows.isEmpty <;> simp [calculate_health_score, hE, hF]

/-- Witness for C7: on the all-zero-spend one-row dataset the score is
defined and within bounds, and the empty dataset gives the all-zero
score. -/
theorem health_score_bounds_witness :
    (0 ≤ (calculate_health_score ⟨[⟨0, 0, "Broad"⟩], true, true, true⟩).score ∧
      (calculate_health_score ⟨[⟨0, 0, "Broad"⟩], true, true, true⟩).score ≤ 100) ∧
    calculate_health_score ⟨[], true, true, true⟩ = zeroHealthScore := by
  constructor
  · obtain ⟨hb, -, -⟩ := health_score_bounds ⟨[⟨0, 0, "Broad"⟩], true, true, true⟩
    have h := hb (by
      intro r hr
      rcases List.mem_singleton.mp hr with rfl
      norm_num)
    exact ⟨h.1, h.2.1⟩
  · obtain ⟨-, hz, -⟩ := health_score_bounds ⟨[], true, true, true⟩
    exact hz rfl

/-- C10: when the dataset reaches the main computation (nonempty, all
required columns) and its total sales is zero, the overall ACOS is defined
as 100 — unlike the other zero-denominator guards, which yield 0 — so the
ACOS sub-score is max(0, 100 − 100) = 0 and `details["overall_acos"]` is
100. -/
theorem health_score_zero_sales (df : HSDF)
    (hS : df.hasSpend = true) (hSa : df.hasSales = true) (hM : df.hasMatchType = true)
    (hne : df.rows ≠ []) (hz : totalSalesH df.rows = 0) :
    overallAcosH df.rows = 100 ∧
    (calculate_health_score df).acos_stability_score = 0 ∧
    (calculate_health_score df).details
      = some
        { wasted_spend := wastedSpendH df.rows
          waste_ratio := wasteRatioH df.rows
          overall_acos := 100 } := by
  have hov : overallAcosH df.rows = 100 := by
    rw [overallAcosH, hz]
    norm_num
  have hac : acosScoreH df.rows = 0 := by
    rw [acosScoreH, hov]
    norm_num [pyMax]
  have hE : df.rows.isEmpty = false := by
    rw [List.isEmpty_eq_false]
    exact hne
  have hcalc : calculate_health_score df = healthScoreCore df.rows := by
    simp [calculate_health_score, hE, hS, hSa, hM]
  refine ⟨hov, ?_, ?_⟩
  · rw [hcalc]
    show pyInt (acosScoreH df.rows) = 0
    rw [hac]
    norm_num [pyInt]
  · rw [hcalc]
    show some _ = some _
    rw [hov]

/-- Witness for C10: the one-row dataset spend 7 / sales 0 / Broad has zero
total sales; its overall ACOS detail is 100 and its ACOS sub-score is 0. -/
theorem health_score_zero_sales_witness :
    overallAcosH [⟨7, 0, "Broad"⟩] = 100 ∧
    (calculate_health_score ⟨[⟨7, 0, "Broad"⟩], true, true, true⟩).acos_stability_score
      = 0 := by
  obtain ⟨h1, h2, -⟩ :=
    health_score_zero_sales ⟨[⟨7, 0, "Broad"⟩], true, true, true⟩ rfl rfl rfl
      (by simp) (by norm_num [totalSalesH])
  exact ⟨h1, h2⟩

/-! ## `analyze_budget_saturation` (`optimization.py`)

The search-term dataset is modelled by the three columns the function
aggregates (`Campaign Name`, `Spend`, `Sales`) and the processed bulk
dataset by (`Campaign Name`, `Daily Budget`); the missing-column early exits
return `[]` and are outside the claim.  `groupby('Campaign Name')`
aggregates per distinct campaign name (pandas also sorts the group keys,
modelled by `sortStrAsc`; with `dedupFirst` keeping first occurrences this
only fixes the pre-sort order, which the final ACOS sort dominates), and the
inner merge pairs every aggregated campaign with every bulk row of the same
name. -/

/-- One search-term row as read by `analyze_budget_saturation`. -/
structure PerfRow where
  campaignName : String
  spend : ℚ
  sales : ℚ
deriving DecidableEq

/-- One row of the processed bulk dataset (`process_bulk_file` output). -/
structure BudgetRow where
  campaignName : String
  dailyBudget : ℚ
deriving DecidableEq

/-- The `BudgetSaturationItem` record of `schemas.py`. -/
structure BudgetSaturationItem where
  campaign_name : String
  daily_budget : ℚ
  spend : ℚ
  utilization : ℚ
  acos : ℚ
  suggested_budget : ℚ
  action_type : String
deriving DecidableEq

/-- Keep the first occurrence of each element (row deduplication /
distinct group keys). -/
def dedupFirst [DecidableEq α] (l : List α) : List α :=
  (l.foldl (fun acc x => if x ∈ acc then acc else x :: acc) []).reverse

/-- Insertion step of the ascending lexicographic sort of group keys. -/
def insertStrAsc (x : String) : List String → List String
  | [] => [x]
  | y :: ys => if x ≤ y then x :: y :: ys else y :: insertStrAsc x ys

/-- Ascending lexicographic sort of group keys (pandas sorts `groupby`
keys). -/
def sortStrAsc : List String → List String
  | [] => []
  | x :: xs => insertStrAsc x (sortStrAsc xs)

/-- Aggregated spend of one campaign (`groupby('Campaign Name')['Spend'].sum()`). -/
def campSpend (rows : List PerfRow) (name : String) : ℚ :=
  ((rows.filter (fun r => decide (r.campaignName = name))).map PerfRow.spend).sum

/-- Aggregated sales of one campaign. -/
def campSales (rows : List PerfRow) (name : String) : ℚ :=
  ((rows.filter (fun r => decide (r.campaignName = name))).map PerfRow.sales).sum

/-- Aggregated campaign ACOS: spend / sales × 100, or 0 when sales is not
positive. -/
def campAcos (rows : List PerfRow) (name : String) : ℚ :=
  if 0 < campSales rows name then campSpend rows name / campSales rows name * 100
  else 0

/-- The inner merge of the aggregated campaign metrics with the bulk
budgets: every (sorted, distinct) campaign name paired with the daily budget
of every bulk row carrying that name. -/
def mergedCampaigns (strRows : List PerfRow) (bulkRows : List BudgetRow) :
    List (String × ℚ) :=
  (sortStrAsc (dedupFirst (strRows.map PerfRow.campaignName))).flatMap
    (fun n => (bulkRows.filter (fun b => decide (b.campaignName = n))).map
      (fun b => (n, b.dailyBudget)))

/-- `analyze_budget_saturation` from `optimization.py`: for each merged
campaign skip non-positive budgets, compute the utilization but report the
0.0 placeholder, keep ACOS < 30, suggest budget × 1.2, sort by ACOS
ascending. -/
def analyze_budget_saturation (strRows : List PerfRow) (bulkRows : List BudgetRow) :
    List BudgetSaturationItem :=
  if strRows.isEmpty || bulkRows.isEmpty then []
  else
    sortAscBy BudgetSaturationItem.acos
      ((mergedCampaigns strRows bulkRows).filterMap (fun p =>
        if p.2 ≤ 0 then none
        else if campAcos strRows p.1 < 30 then
          some { campaign_name := p.1
                 daily_budget := p.2
                 spend := campSpend strRows p.1
                 utilization := 0
                 acos := campAcos strRows p.1
                 suggested_budget := p.2 * 1.2
                 action_type := "Budget Increase" }
        else none))

/-- C5: every emitted budget-saturation item reports the literal placeholder
0 as utilization (never spend/budget), stems from a bulk campaign with
positive daily budget and aggregated campaign ACOS < 30, carries suggested
budget = daily budget × 1.2, and the list is sorted by ACOS ascending. -/
theorem budget_saturation_spec (strRows : List PerfRow) (bulkRows : List BudgetRow) :
    (∀ it ∈ analyze_budget_saturation strRows bulkRows,
      it.utilization = 0 ∧
      0 < it.daily_budget ∧
      it.acos < 30 ∧
      it.suggested_budget = it.daily_budget * 1.2 ∧
      it.acos = campAcos strRows it.campaign_name ∧
      it.spend = campSpend strRows it.campaign_name ∧
      ∃ b ∈ bulkRows, b.campaignName = it.campaign_name ∧
        b.dailyBudget = it.daily_budget) ∧
    (analyze_budget_saturation strRows bulkRows).Pairwise
      (fun a b => a.acos ≤ b.acos) := by
  constructor
  · intro it hit
    rw [analyze_budget_saturation] at hit
    by_cases hE : (strRows.isEmpty || bulkRows.isEmpty) = true
    · rw [if_pos hE] at hit
      simp at hit
    · rw [if_neg hE, mem_sortAscBy] at hit
      rcases List.mem_filterMap.mp hit with ⟨p, hp, hsome⟩
      by_cases h1 : p.2 ≤ 0
      · rw [if_pos h1] at hsome
        simp at hsome
      · rw [if_neg h1] at hsome
        by_cases h2 : campAcos strRows p.1 < 30
        · rw [if_pos h2, Option.some_inj] at hsome
          subst hsome
          rcases List.mem_flatMap.mp hp with ⟨n, hn, hmem⟩
          rcases List.mem_map.mp hmem with ⟨b, hb, hpb⟩
          rcases List.mem_filter.mp hb with ⟨hbmem, hbname⟩
          have hname : b.campaignName = n := by simpa using hbname
          cases hpb
          exact ⟨rfl, lt_of_not_le h1, h2, rfl, rfl, rfl,
            ⟨b, hbmem, hname, rfl⟩⟩
        · rw [if_neg h2] at hsome
          simp at hsome
  · rw [analyze_budget_saturation]
    by_cases hE : (strRows.isEmpty || bulkRows.isEmpty) = true
    · rw [if_pos hE]
      exact List.Pairwise.nil
    · rw [if_neg hE]
      exact pairwise_sortAscBy

/-- Witness for C5: campaign `"A"` with spend 10 and sales 100 (ACOS 10) and
daily budget 5 yields exactly the item with utilization 0 — although
spend/budget is 2 — and suggested budget 6. -/
theorem budget_saturation_spec_witness :
    analyze_budget_saturation [⟨"A", 10, 100⟩] [⟨"A", 5⟩]
      = [⟨"A", 5, 10, 0, 10, 6, "Budget Increase"⟩] ∧
    (⟨"A", 5, 10, 0, 10, 6, "Budget Increase"⟩ : BudgetSaturationItem).utilization
      = 0 ∧
    (10 : ℚ) / 5 ≠ 0 ∧
    ((⟨"A", 5, 10, 0, 10, 6, "Budget Increase"⟩ : BudgetSaturationItem).suggested_budget
      = (⟨"A", 5, 10, 0, 10, 6, "Budget Increase"⟩ : BudgetSaturationItem).daily_budget
        * 1.2) := by
  have hf : ([⟨"A", 10, 100⟩] : List PerfRow).filter
      (fun r => decide (r.campaignName = "A")) = [⟨"A", 10, 100⟩] := by decide
  have hsp : campSpend [⟨"A", 10, 100⟩] "A" = 10 := by
    rw [campSpend, hf]
    norm_num
  have hsa : campSales [⟨"A", 10, 100⟩] "A" = 100 := by
    rw [campSales, hf]
    norm_num
  have hacos : campAcos [⟨"A", 10, 100⟩] "A" = 10 := by
    rw [campAcos, hsp, hsa]
    norm_num
  have hmerge : mergedCampaigns [⟨"A", 10, 100⟩] [⟨"A", 5⟩] = [("A", 5)] := by
    decide
  have hout : analyze_budget_saturation [⟨"A", 10, 100⟩] [⟨"A", 5⟩]
      = [⟨"A", 5, 10, 0, 10, 6, "Budget Increase"⟩] := by
    rw [analyze_budget_saturation]
    rw [if_neg (by decide), hmerge]
    rw [show (List.filterMap _ [(("A" : String), (5 : ℚ))]) = _ from rfl]
    norm_num [List.filterMap, hacos, hsp, sortAscBy, insertAscBy]
  obtain ⟨hall, -⟩ := budget_saturation_spec [⟨"A", 10, 100⟩] [⟨"A", 5⟩]
  have hm : (⟨"A", 5, 10, 0, 10, 6, "Budget Increase"⟩ : BudgetSaturationItem)
      ∈ analyze_budget_saturation [⟨"A", 10, 100⟩] [⟨"A", 5⟩] := by
    rw [hout]
    exact List.mem_singleton.mpr rfl
  obtain ⟨hu, -, -, hsug, -, -, -⟩ := hall _ hm
  exact ⟨hout, hu, by norm_num, hsug⟩

/-! ## `generate_negatives_bulk_file` (`negative_generator.py`)

The function's spreadsheet serialization (`pd.ExcelWriter`) is the external
writer collaborator; what is modelled is the list of rows it builds.  A
recommendation record is a Python dict read with `item.get(key, default)`;
`none` models an absent key.  Of the 46 `BULK_HEADERS` columns produced by
`generate_empty_row`, only the twelve below are ever assigned; the remaining
columns stay `None` in every row and are not repeated in the row model. -/

/-- The fixed bulk upload header set (`BULK_HEADERS`). -/
def BULK_HEADERS : List String :=
  ["Product", "Entity", "Operation", "Campaign ID", "Ad Group ID", "Portfolio ID",
   "Ad ID", "Keyword ID", "Product Targeting ID", "Campaign Name", "Ad Group Name",
   "Campaign Name (Informational only)", "Ad Group Name (Informational only)",
   "Portfolio Name (Informational only)", "Start Date", "End Date", "Targeting Type",
   "State", "Campaign State (Informational only)", "Ad Group State (Informational only)",
   "Daily Budget", "SKU", "ASIN (Informational only)",
   "Eligibility Status (Informational only)",
   "Reason for Ineligibility (Informational only)", "Ad Group Default Bid",
   "Ad Group Default Bid (Informational only)", "Bid", "Keyword Text", "Match Type",
   "Bidding Strategy", "Placement", "Percentage", "Product Targeting Expression",
   "Resolved Product Targeting Expression (Informational only)", "Impressions",
   "Clicks", "Click-through Rate", "Spend", "Sales", "Orders", "Units",
   "Conversion Rate", "ACOS", "CPC", "ROAS"]

/-- `classify_negative_type` from `negative_generator.py`. -/
def classify_negative_type (search_term : String) : String :=
  if is_asin search_term then "negative_product" else "negative_keyword"

/-- A recommendation record as consumed by `generate_negatives_bulk_file`. -/
structure NegItem where
  customer_search_term : Option String
  campaign_name : Option String
  ad_group_name : Option String
  campaign_id : Option String
  ad_group_id : Option String
  portfolio_id : Option String
  is_asin : Option Bool
deriving DecidableEq

/-- The assigned columns of one output row (all other `BULK_HEADERS` columns
remain `None`). -/
structure NegRow where
  product : Option String
  entity : Option String
  operation : Option String
  campaign_id : Option String
  ad_group_id : Option String
  portfolio_id : Option String
  campaign_name : Option String
  ad_group_name : Option String
  state : Option String
  keyword_text : Option String
  match_type : Option String
  product_targeting_expression : Option String
deriving DecidableEq

/-- `campaign_name.strip("'").strip('"')`: strip surrounding single quotes,
then surrounding double quotes. -/
def stripQuotes (s : String) : String :=
  pyStripChars ['"'] (pyStripChars ['\''] s)

/-- Construction of one bulk row from one record
(`generate_negatives_bulk_file` loop body). -/
def mkNegRow (use_negative_phrase : Bool) (item : NegItem) : NegRow :=
  let search_term := replaceChar '/' ' ' (item.customer_search_term.getD "")
  let cname := stripQuotes (item.campaign_name.getD "")
  let cid := item.campaign_id.getD ""
  let agid := item.ad_group_id.getD ""
  let pid := item.portfolio_id.getD ""
  let mt := if use_negative_phrase then "Negative Phrase" else "Negative Exact"
  let base : NegRow :=
    { product := some "Sponsored Products"
      entity := none
      operation := some "Create"
      campaign_id := if cid ≠ "" then some cid else none
      ad_group_id := if agid ≠ "" then some agid else none
      portfolio_id := if pid ≠ "" then some pid else none
      campaign_name := some cname
      ad_group_name := some (item.ad_group_name.getD "")
      state := some "Enabled"
      keyword_text := none
      match_type := none
      product_targeting_expression := none }
  if item.is_asin.getD false then
    { base with
        entity := some "Negative Product Targeting"
        product_targeting_expression :=
          some ("asin=\"" ++ pyUpper search_term ++ "\"") }
  else
    { base with
        entity := some "Negative Keyword"
        keyword_text := some search_term
        match_type := some mt }

/-- `generate_negatives_bulk_file` from `negative_generator.py`: one bulk
row per selected record. -/
def generate_negatives_bulk_file (selected_items : List NegItem)
    (use_negative_phrase : Bool) : List NegRow :=
  selected_items.map (mkNegRow use_negative_phrase)

/-- C4, counterexample: `generate_negatives_bulk_file` branches on the
record's `is_asin` flag (default `False`), not on the search term: the
record whose search term `"b0abcdefgh"` satisfies the product-ID pattern but
which carries no `is_asin` key is emitted as `Entity = "Negative Keyword"`,
refuting the claimed iff between Entity and the pattern. -/
theorem negatives_entity_flag_counterexample :
    is_asin "b0abcdefgh" = true ∧
    (generate_negatives_bulk_file
        [⟨some "b0abcdefgh", none, none, none, none, none, none⟩] false).map
        NegRow.entity
      = [some "Negative Keyword"] := by
  constructor
  · decide
  · decide

/-- C4 (amended): building bulk-negative rows from N records yields exactly
N rows; row `i` is built from record `i`, with Entity `"Negative Product
Targeting"` iff the record's `is_asin` flag is present and true (else
`"Negative Keyword"`) — the flag, not the term's product-ID pattern, decides
the Entity; slashes in the search-term text are replaced by spaces wherever
it is emitted (negative-keyword text, or upper-cased inside the
`asin="…"` product-targeting expression — no slash survives), and the
campaign name is emitted with surrounding single then double quote
characters stripped. -/
theorem negatives_rows_spec (items : List NegItem) (unp : Bool) :
    (generate_negatives_bulk_file items unp).length = items.length ∧
    (∀ s : String, '/' ∉ (replaceChar '/' ' ' s).data) ∧
    ∀ (i : ℕ) (item : NegItem), items[i]? = some item →
      (generate_negatives_bulk_file items unp)[i]? = some (mkNegRow unp item) ∧
      (mkNegRow unp item).entity
        = some (if item.is_asin.getD false then "Negative Product Targeting"
          else "Negative Keyword") ∧
      (mkNegRow unp item).campaign_name
        = some (stripQuotes (item.campaign_name.getD "")) ∧
      (item.is_asin.getD false = true →
        (mkNegRow unp item).product_targeting_expression
          = some ("asin=\"" ++
              pyUpper (replaceChar '/' ' ' (item.customer_search_term.getD "")) ++
              "\"") ∧
        (mkNegRow unp item).keyword_text = none) ∧
      (item.is_asin.getD false = false →
        (mkNegRow unp item).keyword_text
          = some (replaceChar '/' ' ' (item.customer_search_term.getD "")) ∧
        (mkNegRow unp item).match_type
          = some (if unp then "Negative Phrase" else "Negative Exact")) := by
  refine ⟨by simp [generate_negatives_bulk_file], ?_, ?_⟩
  · intro s hmem
    rw [replaceChar] at hmem
    rcases List.mem_map.mp hmem with ⟨c, -, hc⟩
    by_cases h : c = '/'
    · rw [if_pos h] at hc
      exact absurd hc (by decide)
    · rw [if_neg h] at hc
      exact h hc
  · intro i item hi
    refine ⟨?_, ?_, ?_, ?_, ?_⟩
    · rw [generate_negatives_bulk_file, List.getElem?_map, hi, Option.map_some']
    · by_cases h : item.is_asin.getD false
      · simp [mkNegRow, h]
      · simp [mkNegRow, h]
    · by_cases h : item.is_asin.getD false
      · simp [mkNegRow, h]
      · simp [mkNegRow, h]
    · intro h
      constructor
      · simp [mkNegRow, h]
      · simp [mkNegRow, h]
    · intro h
      constructor
      · simp [mkNegRow, h]
      · simp [mkNegRow, h]

/-- Witness for C4: a two-record list — one record flagged `is_asin = True`
with search term `"b0abcdefgh"`, one unflagged with search term
`"mixer/blender"` and a quoted campaign name — yields two rows: the first a
negative product targeting with `asin="B0ABCDEFGH"`, the second a negative
keyword whose text has the slash replaced by a space and whose campaign name
has its quotes stripped. -/
theorem negatives_rows_spec_witness :
    (generate_negatives_bulk_file
        [⟨some "b0abcdefgh", none, none, none, none, none, some true⟩,
         ⟨some "mixer/blender", some "\"Camp A\"", none, none, none, none, none⟩]
        false).length = 2 ∧
    (mkNegRow false
        ⟨some "b0abcdefgh", none, none, none, none, none, some true⟩).entity
      = some "Negative Product Targeting" ∧
    (mkNegRow false
        ⟨some "b0abcdefgh", none, none, none, none, none,
          some true⟩).product_targeting_expression
      = some "asin=\"B0ABCDEFGH\"" ∧
    (mkNegRow false
        ⟨some "mixer/blender", some "\"Camp A\"", none, none, none, none,
          none⟩).entity
      = some "Negative Keyword" ∧
    (mkNegRow false
        ⟨some "mixer/blender", some "\"Camp A\"", none, none, none, none,
          none⟩).keyword_text
      = some "mixer blender" ∧
    (mkNegRow false
        ⟨some "mixer/blender", some "\"Camp A\"", none, none, none, none,
          none⟩).campaign_name
      = some "Camp A" := by
  obtain ⟨hlen, -, hrows⟩ :=
    negatives_rows_spec
      [⟨some "b0abcdefgh", none, none, none, none, none, some true⟩,
       ⟨some "mixer/blender", some "\"Camp A\"", none, none, none, none, none⟩]
      false
  obtain ⟨-, he0, -, hpt0, -⟩ :=
    hrows 0 ⟨some "b0abcdefgh", none, none, none, none, none, some true⟩ rfl
  obtain ⟨-, he1, hc1, -, hkw1⟩ :=
    hrows 1 ⟨some "mixer/blender", some "\"Camp A\"", none, none, none, none, none⟩ rfl
  refine ⟨by rw [hlen]; rfl, by rw [he0]; decide, ?_, by rw [he1]; decide, ?_, ?_⟩
  · obtain ⟨hx, -⟩ := hpt0 (by decide)
    rw [hx]
    decide
  · obtain ⟨hx, -⟩ := hkw1 (by decide)
    rw [hx]
    decide
  · rw [hc1]
    decide

/-! ## `enrich_with_ids` (`parser.py`)

The bulk dataset is a header list plus rows of cells; a cell is either a
missing value or a string (numeric identifiers appear in their printed form,
e.g. `"222.0"`).  Column access by name fails — modelling the pandas
errors of §7(d), e.g. on rows of unexpected shape — when the header is
absent or a row is shorter than the header, so lookup construction lives in
`Except`; `enrich_with_ids` catches every such error and returns `0` with
the items untouched, exactly like its `try/except`.  Where pandas has
duplicate column labels the first matching column is read. -/

/-- One bulk-dataset cell. -/
inductive Cell where
  /-- A missing value (`NaN`). -/
  | na
  /-- A string cell (numbers in printed form). -/
  | s (v : String)
deriving DecidableEq

/-- Python `str(cell)` (a missing float value prints as `nan`; it is only
ever stringified for name cells, which the callers have dropna-filtered). -/
def cellStr : Cell → String
  | .na => "nan"
  | .s v => v

/-- `clean_id` from `enrich_with_ids`: `None` for missing values, else strip
and drop a trailing `".0"`. -/
def clean_id : Cell → Option String
  | .na => none
  | .s v =>
    let t := pyStrip v
    some (if pyEndsWith t ".0" then dropRightStr t 2 else t)

/-- A bulk-operations dataset: header list and rows of cells. -/
structure BulkDF where
  cols : List String
  rows : List (List Cell)
deriving DecidableEq

deriving instance DecidableEq for Except

/-- The alias table `COLUMN_MAPPINGS` of `parser.py` (keys are the
lower-cased, stripped header forms). -/
def COLUMN_MAPPINGS : List (String × String) :=
  [("7 day total sales", "Sales"), ("7 day total sales ($)", "Sales"),
   ("total sales", "Sales"), ("sales", "Sales"),
   ("total advertising cost of sales (acos)", "ACOS"), ("acos", "ACOS"),
   ("advertising cost of sales", "ACOS"),
   ("total return on advertising spend (roas)", "ROAS"), ("roas", "ROAS"),
   ("return on advertising spend", "ROAS"),
   ("7 day total orders (#)", "Orders"), ("7 day total orders", "Orders"),
   ("orders", "Orders"),
   ("7 day total units (#)", "Units"), ("7 day total units", "Units"),
   ("units", "Units"),
   ("7 day conversion rate", "Conversion Rate"),
   ("conversion rate", "Conversion Rate"),
   ("cost per click (cpc)", "CPC"), ("cpc", "CPC"), ("average cpc", "CPC"),
   ("click-thru rate (ctr)", "CTR"), ("click-through rate", "CTR"), ("ctr", "CTR"),
   ("portfolio name", "Portfolio"), ("portfolio", "Portfolio"),
   ("portfolio id", "Portfolio ID"),
   ("campaign name", "Campaign Name"), ("campaign", "Campaign Name"),
   ("ad group name", "Ad Group Name"),
   ("campaign id", "Campaign ID"), ("ad group id", "Ad Group ID"),
   ("keyword text", "Keyword Text"), ("match type", "Match Type"),
   ("record type", "Record Type"), ("entity", "Record Type"),
   ("product targeting expression", "Product Targeting Expression")]

/-- `normalize_columns` from `parser.py`: rename every header whose
lower-cased, stripped form is a known alias to its canonical name, keep
other headers untouched. -/
def normalize_columns (df : BulkDF) : BulkDF :=
  { df with
      cols := df.cols.map (fun c =>
        ((COLUMN_MAPPINGS.find? (fun p => p.1 = pyStrip (pyLower c))).map
          Prod.snd).getD c) }

/-- The explicit `Entity` → `Record Type` rename `enrich_with_ids` applies
before normalizing. -/
def renameEntity (df : BulkDF) : BulkDF :=
  if df.cols.contains "Entity" && !(df.cols.contains "Record Type") then
    { df with cols := df.cols.map (fun c => if c = "Entity" then "Record Type" else c) }
  else df

/-- The dataframe preparation at the top of `enrich_with_ids`'s `try`
block. -/
def prepare (bulk : BulkDF) : BulkDF :=
  normalize_columns (renameEntity bulk)

/-- Read the cell of column `name` in `row`: the first header with that name
(pandas label lookup), failing when the header is absent or the row is too
short. -/
def getCell (cols : List String) (row : List Cell) (name : String) : Except Unit Cell :=
  match cols.findIdx? (fun c => c = name) with
  | none => .error ()
  | some i =>
    match row.get? i with
    | none => .error ()
    | some c => .ok c

/-- One row of a campaign-map selection `bdf[[name_col, 'Campaign ID'] (+
'Portfolio ID')]`. -/
structure CampRow where
  name : Cell
  id : Cell
  port : Option Cell
deriving DecidableEq

/-- One row of an ad-group-map selection
`bdf[[cn_col, an_col, ag_id_col]]`. -/
structure AGRow where
  cn : Cell
  an : Cell
  id : Cell
deriving DecidableEq

/-- Select the campaign-map columns (name column, `Campaign ID`, and
`Portfolio ID` when present) from every row. -/
def selectCampRows (df : BulkDF) (nameCol : String) : Except Unit (List CampRow) :=
  df.rows.mapM (fun row => do
    let n ← getCell df.cols row nameCol
    let i ← getCell df.cols row "Campaign ID"
    if df.cols.contains "Portfolio ID" then
      let p ← getCell df.cols row "Portfolio ID"
      pure ⟨n, i, some p⟩
    else
      pure ⟨n, i, none⟩)

/-- `dropna(subset=[name_col, 'Campaign ID'])` on a selection. -/
def dropnaCamp (l : List CampRow) : List CampRow :=
  l.filter (fun r => decide (r.name ≠ Cell.na) && decide (r.id ≠ Cell.na))

/-- `next((c for c in bdf.columns if c.lower().strip() == target), None)`. -/
def infoCol (cols : List String) (target : String) : Option String :=
  cols.find? (fun c => pyStrip (pyLower c) = target)

/-- The primary campaign-map rows: selected on `Campaign Name` when both it
and `Campaign ID` exist, dropna'd and deduplicated; `[]` otherwise. -/
def primaryCampRows (df : BulkDF) : Except Unit (List CampRow) :=
  if df.cols.contains "Campaign Name" && df.cols.contains "Campaign ID" then
    (selectCampRows df "Campaign Name").map (fun l => dedupFirst (dropnaCamp l))
  else .ok []

/-- The secondary campaign-map rows: selected on the
`campaign name (informational only)` column when it and `Campaign ID`
exist. -/
def infoCampRows (df : BulkDF) : Except Unit (List CampRow) :=
  match infoCol df.cols "campaign name (informational only)" with
  | some c =>
    if df.cols.contains "Campaign ID" then
      (selectCampRows df c).map (fun l => dedupFirst (dropnaCamp l))
    else .ok []
  | none => .ok []

/-- The ad-group-ID column resolution: prefer `Ad Group ID`; fall back to
`Ad Group` only when an `Ad Group Name` column also exists. -/
def agIdCol (cols : List String) : String :=
  if cols.contains "Ad Group ID" then "Ad Group ID"
  else if cols.contains "Ad Group" && cols.contains "Ad Group Name" then "Ad Group"
  else "Ad Group ID"

/-- Select the ad-group-map columns from every row. -/
def selectAGRows (df : BulkDF) (cnCol anCol idCol : String) :
    Except Unit (List AGRow) :=
  df.rows.mapM (fun row => do
    let c ← getCell df.cols row cnCol
    let a ← getCell df.cols row anCol
    let i ← getCell df.cols row idCol
    pure ⟨c, a, i⟩)

/-- `dropna()` on an ad-group selection: drop the row when any of the three
cells is missing. -/
def dropnaAG (l : List AGRow) : List AGRow :=
  l.filter (fun r => decide (r.cn ≠ Cell.na) && decide (r.an ≠ Cell.na) &&
    decide (r.id ≠ Cell.na))

/-- The primary ad-group-map rows (`Campaign Name` × `Ad Group Name` ×
resolved ID column). -/
def primaryAGRows (df : BulkDF) : Except Unit (List AGRow) :=
  if df.cols.contains (agIdCol df.cols) then
    if df.cols.contains "Campaign Name" && df.cols.contains "Ad Group Name" then
      (selectAGRows df "Campaign Name" "Ad Group Name" (agIdCol df.cols)).map
        (fun l => dedupFirst (dropnaAG l))
    else .ok []
  else .ok []

/-- The secondary ad-group-map rows (both informational-only name
columns). -/
def infoAGRows (df : BulkDF) : Except Unit (List AGRow) :=
  if df.cols.contains (agIdCol df.cols) then
    match infoCol df.cols "campaign name (informational only)",
        infoCol df.cols "ad group name (informational only)" with
    | some c, some a =>
      (selectAGRows df c a (agIdCol df.cols)).map (fun l => dedupFirst (dropnaAG l))
    | _, _ => .ok []
  else .ok []

/-- A Python dict keyed by `κ` with `Option String` values: `none` means the
key is absent, `some v` that the key is present with value `v` (possibly
`None`). -/
def setMapP [DecidableEq κ] (m : κ → Option (Option String)) (k : κ)
    (v : Option String) : κ → Option (Option String) :=
  fun x => if x = k then some v else m x

/-- The pair `cid_map`/`pid_map` under construction. -/
structure CampMaps where
  cid : String → Option (Option String)
  pid : String → Option (Option String)

/-- `str(row[name_col]).lower().strip()`. -/
def normName (c : Cell) : String :=
  pyStrip (pyLower (cellStr c))

/-- One iteration of `add_to_campaign_maps`: always write the campaign-ID
entry; write the portfolio-ID entry only when the portfolio column was
selected and the cell is not missing. -/
def addCampRow (m : CampMaps) (r : CampRow) : CampMaps :=
  let k := normName r.name
  let m1 : CampMaps := { m with cid := setMapP m.cid k (clean_id r.id) }
  match r.port with
  | some p => if p ≠ Cell.na then { m1 with pid := setMapP m1.pid k (clean_id p) } else m1
  | none => m1

/-- `add_to_campaign_maps` over a whole selection. -/
def addCampRows (rows : List CampRow) (m : CampMaps) : CampMaps :=
  rows.foldl addCampRow m

/-- One iteration of the ad-group loops:
`agid_map[(cn, an)] = clean_id(row[ag_id_col])`. -/
def addAGRow (m : String × String → Option (Option String)) (r : AGRow) :
    String × String → Option (Option String) :=
  setMapP m (normName r.cn, normName r.an) (clean_id r.id)

/-- The ad-group loop over a whole selection. -/
def addAGRows (rows : List AGRow) (m : String × String → Option (Option String)) :
    String × String → Option (Option String) :=
  rows.foldl addAGRow m

/-- The three lookup tables of the identity resolver. -/
structure Lookups where
  cid : String → Option (Option String)
  pid : String → Option (Option String)
  agid : String × String → Option (Option String)

/-- The empty campaign maps. -/
def emptyCampMaps : CampMaps :=
  { cid := fun _ => none, pid := fun _ => none }

/-- Lookup construction of `enrich_with_ids` (the body of its `try` block
before the injection loop): primary campaign scan, then secondary
(informational-only) campaign scan, then primary and secondary ad-group
scans, each writing into the shared dictionaries. -/
def buildLookups (df : BulkDF) : Except Unit Lookups := do
  let ps ← primaryCampRows df
  let qs ← infoCampRows df
  let cm := addCampRows qs (addCampRows ps emptyCampMaps)
  let pas ← primaryAGRows df
  let qas ← infoAGRows df
  let ag := addAGRows qas (addAGRows pas (fun _ => none))
  pure ⟨cm.cid, cm.pid, ag⟩

/-- A recommendation record as seen by the injection loop: its two name
fields and the three optional identifier slots. -/
structure RecItem where
  campaign_name : String
  ad_group_name : String
  campaign_id : Option String
  portfolio_id : Option String
  ad_group_id : Option String
deriving DecidableEq

/-- Python truthiness of an optional identifier: `None` and the empty string
are falsy. -/
def truthyStr : Option String → Bool
  | none => false
  | some s => decide (s ≠ "")

/-- Injection of the looked-up identifiers into one record: each field is
set only when the dictionary value is truthy, otherwise left as it was. -/
def applyIds (lk : Lookups) (item : RecItem) : RecItem :=
  let c := pyStrip (pyLower item.campaign_name)
  let a := pyStrip (pyLower item.ad_group_name)
  let cid := (lk.cid c).getD none
  let pid := (lk.pid c).getD none
  let agid := (lk.agid (c, a)).getD none
  { item with
      campaign_id := if truthyStr cid then cid else item.campaign_id
      portfolio_id := if truthyStr pid then pid else item.portfolio_id
      ad_group_id := if truthyStr agid then agid else item.ad_group_id }

/-- `enrich_with_ids` from `parser.py`: empty inputs return `(0, items)`;
any error while building the lookups is caught and returns `(0, items)`;
otherwise every record is enriched and the count of records whose
(campaign, ad-group) key is present in the ad-group table is returned. -/
def enrich_with_ids (items : List RecItem) (bulk : BulkDF) : ℕ × List RecItem :=
  if bulk.cols.isEmpty || bulk.rows.isEmpty || items.isEmpty then (0, items)
  else
    match buildLookups (prepare bulk) with
    | .error _ => (0, items)
    | .ok lk =>
      ((items.filter (fun it =>
          (lk.agid (pyStrip (pyLower it.campaign_name),
            pyStrip (pyLower it.ad_group_name))).isSome)).length,
        items.map (applyIds lk))

/-- The last campaign-ID value a scan writes for key `k`: the `clean_id` of
the last selected row whose normalized name is `k`. -/
def lastWrite? (rows : List CampRow) (k : String) : Option (Option String) :=
  match rows with
  | [] => none
  | r :: rs =>
    match lastWrite? rs k with
    | some v => some v
    | none => if k = normName r.name then some (clean_id r.id) else none

/-- The last portfolio-ID value a scan writes for key `k` (only rows with a
selected, non-missing portfolio cell write one). -/
def lastWritePid? (rows : List CampRow) (k : String) : Option (Option String) :=
  match rows with
  | [] => none
  | r :: rs =>
    match lastWritePid? rs k with
    | some v => some v
    | none =>
      match r.port with
      | some p =>
        if p ≠ Cell.na ∧ k = normName r.name then some (clean_id p) else none
      | none => none

/-- The last ad-group-ID value a scan writes for a (campaign, ad-group)
key. -/
def lastWriteAG? (rows : List AGRow) (k : String × String) : Option (Option String) :=
  match rows with
  | [] => none
  | r :: rs =>
    match lastWriteAG? rs k with
    | some v => some v
    | none =>
      if k = (normName r.cn, normName r.an) then some (clean_id r.id) else none

theorem addCampRow_cid (m : CampMaps) (r : CampRow) (k : String) :
    (addCampRow m r).cid k
      = if k = normName r.name then some (clean_id r.id) else m.cid k := by
  rw [addCampRow]
  rcases r.port with _ | p
  · rfl
  · by_cases hp : p ≠ Cell.na
    · simp only [if_pos hp]
      rfl
    · simp only [if_neg hp]
      rfl

theorem addCampRow_pid (m : CampMaps) (r : CampRow) (k : String) :
    (addCampRow m r).pid k
      = match r.port with
        | some p =>
          if p ≠ Cell.na ∧ k = normName r.name then some (clean_id p) else m.pid k
        | none => m.pid k := by
  rw [addCampRow]
  rcases hport : r.port with _ | p
  · rfl
  · by_cases hp : p ≠ Cell.na
    · simp only [if_pos hp]
      by_cases hk : k = normName r.name
      · simp [setMapP, hp, hk]
      · simp [setMapP, hp, hk]
    · simp only [if_neg hp]
      simp [hp]

theorem addCampRows_cid (rows : List CampRow) (m : CampMaps) (k : String) :
    (addCampRows rows m).cid k
      = match lastWrite? rows k with
        | some v => some v
        | none => m.cid k := by
  induction rows generalizing m with
  | nil => rfl
  | cons r rs ih =>
    rw [addCampRows, List.foldl_cons]
    rw [show (rs.foldl addCampRow (addCampRow m r)) = addCampRows rs (addCampRow m r)
      from rfl]
    rw [ih, lastWrite?]
    rcases lastWrite? rs k with _ | v
    · rw [addCampRow_cid]
      by_cases hk : k = normName r.name
      · simp [hk]
      · simp [hk]
    · rfl

theorem addCampRows_pid (rows : List CampRow) (m : CampMaps) (k : String) :
    (addCampRows rows m).pid k
      = match lastWritePid? rows k with
        | some v => some v
        | none => m.pid k := by
  induction rows generalizing m with
  | nil => rfl
  | cons r rs ih =>
    rw [addCampRows, List.foldl_cons]
    rw [show (rs.foldl addCampRow (addCampRow m r)) = addCampRows rs (addCampRow m r)
      from rfl]
    rw [ih, lastWritePid?]
    rcases lastWritePid? rs k with _ | v
    · rw [addCampRow_pid]
      rcases r.port with _ | p
      · rfl
      · by_cases hc : p ≠ Cell.na ∧ k = normName r.name
        · simp [hc]
        · simp [hc]
    · rfl

theorem addAGRows_eq (rows : List AGRow)
    (m : String × String → Option (Option String)) (k : String × String) :
    addAGRows rows m k
      = match lastWriteAG? rows k with
        | some v => some v
        | none => m k := by
  induction rows generalizing m with
  | nil => rfl
  | cons r rs ih =>
    rw [addAGRows, List.foldl_cons]
    rw [show (rs.foldl addAGRow (addAGRow m r)) = addAGRows rs (addAGRow m r) from rfl]
    rw [ih, lastWriteAG?]
    rcases lastWriteAG? rs k with _ | v
    · rw [addAGRow, setMapP]
      by_cases hk : k = (normName r.cn, normName r.an)
      · simp [hk]
      · simp [hk]
    · rfl

/-- C1 (amended): the primary name columns are scanned before the
informational-only name columns, but the scans write with plain dictionary
assignment — last write wins.  For each of the three lookup tables the final
entry of a key is the last value written by the informational-only scan when
that scan matches the key, and only otherwise the last value written by the
primary scan: a later informational-only match *overwrites* an entry set
from the primary columns instead of merely filling gaps. -/
theorem enrich_lookup_last_write_wins (df : BulkDF) (lk : Lookups)
    (ps qs : List CampRow) (pas qas : List AGRow)
    (hlk : buildLookups df = .ok lk)
    (hp : primaryCampRows df = .ok ps) (hq : infoCampRows df = .ok qs)
    (hpa : primaryAGRows df = .ok pas) (hqa : infoAGRows df = .ok qas) :
    (∀ k, lk.cid k
      = match lastWrite? qs k with
        | some v => some v
        | none =>
          match lastWrite? ps k with
          | some v => some v
          | none => none) ∧
    (∀ k, lk.pid k
      = match lastWritePid? qs k with
        | some v => some v
        | none =>
          match lastWritePid? ps k with
          | some v => some v
          | none => none) ∧
    (∀ k, lk.agid k
      = match lastWriteAG? qas k with
        | some v => some v
        | none =>
          match lastWriteAG? pas k with
          | some v => some v
          | none => none) := by
  have hbig : buildLookups df = .ok
      ⟨(addCampRows qs (addCampRows ps emptyCampMaps)).cid,
       (addCampRows qs (addCampRows ps emptyCampMaps)).pid,
       addAGRows qas (addAGRows pas (fun _ => none))⟩ := by
    simp only [buildLookups, hp, hq, hpa, hqa]
    rfl
  rw [hbig] at hlk
  have hlk2 := Except.ok.inj hlk
  subst hlk2
  refine ⟨?_, ?_, ?_⟩ <;> intro k
  · show (addCampRows qs (addCampRows ps emptyCampMaps)).cid k = _
    rw [addCampRows_cid, addCampRows_cid]
    rcases lastWrite? qs k with _ | v
    · rcases lastWrite? ps k with _ | w <;> rfl
    · rfl
  · show (addCampRows qs (addCampRows ps emptyCampMaps)).pid k = _
    rw [addCampRows_pid, addCampRows_pid]
    rcases lastWritePid? qs k with _ | v
    · rcases lastWritePid? ps k with _ | w <;> rfl
    · rfl
  · show addAGRows qas (addAGRows pas (fun _ => none)) k = _
    rw [addAGRows_eq, addAGRows_eq]

/-- The bulk dataset of the C1 counterexample: the primary scan sees only
the first row (`Campaign Name` "A" → ID "1"), the informational-only scan
only the second (`Campaign Name (Informational only)` "A" → ID "2"). -/
def overwriteBulk : BulkDF :=
  { cols := ["Campaign Name", "Campaign ID", "Campaign Name (Informational only)"]
    rows := [[.s "A", .s "1", .na], [.na, .s "2", .s "A"]] }

/-- C1, counterexample: with `overwriteBulk` the primary column set writes
campaign ID "1" for key "a" and the later informational-only match
overwrites it with "2" — the enriched record receives `campaign_id = "2"`,
whereas on the same bulk without the informational row it receives "1".
Under the claim (informational matches only fill absent keys) both runs
would attach "1". -/
theorem enrich_info_overwrite_counterexample :
    enrich_with_ids [⟨"A", "", none, none, none⟩] overwriteBulk
      = (0, [⟨"A", "", some "2", none, none⟩]) ∧
    enrich_with_ids [⟨"A", "", none, none, none⟩]
        ⟨["Campaign Name", "Campaign ID", "Campaign Name (Informational only)"],
         [[.s "A", .s "1", .na]]⟩
      = (0, [⟨"A", "", some "1", none, none⟩]) := by
  exact ⟨by decide, by decide⟩

/-- The bulk dataset of the C1 witness. -/
def w1Bulk : BulkDF :=
  { cols := ["Campaign Name", "Campaign ID", "Campaign Name (Informational only)"]
    rows := [[.s "B", .s "7", .na], [.na, .s "9", .s "B"]] }

/-- The campaign-ID table entry of a lookup-construction result. -/
def cidOf (e : Except Unit Lookups) (k : String) : Option (Option String) :=
  match e with
  | .ok lk => lk.cid k
  | .error _ => none

/-- Witness for C1: on `w1Bulk` the characterization yields the
informational-only scan's value "9" for key "b", overwriting the primary
"7". -/
theorem enrich_lookup_last_write_wins_witness :
    cidOf (buildLookups w1Bulk) "b" = some (some "9") := by
  have hp : primaryCampRows w1Bulk = .ok [⟨.s "B", .s "7", none⟩] := by decide
  have hq : infoCampRows w1Bulk = .ok [⟨.s "B", .s "9", none⟩] := by decide
  have hpa : primaryAGRows w1Bulk = .ok [] := by decide
  have hqa : infoAGRows w1Bulk = .ok [] := by decide
  have hlk : buildLookups w1Bulk = .ok
      ⟨(addCampRows [⟨.s "B", .s "9", none⟩]
          (addCampRows [⟨.s "B", .s "7", none⟩] emptyCampMaps)).cid,
       (addCampRows [⟨.s "B", .s "9", none⟩]
          (addCampRows [⟨.s "B", .s "7", none⟩] emptyCampMaps)).pid,
       addAGRows [] (addAGRows [] (fun _ => none))⟩ := by
    simp only [buildLookups, hp, hq, hpa, hqa]
    rfl
  obtain ⟨hcid, -, -⟩ :=
    enrich_lookup_last_write_wins w1Bulk _ _ _ _ _ hlk hp hq hpa hqa
  rw [hlk]
  exact (hcid "b").trans (by decide)

/-- True when lookup construction on the prepared bulk dataset raises (the
`except` branch of `enrich_with_ids` fires). -/
def lookupsFailed (bulk : BulkDF) : Bool :=
  match buildLookups (prepare bulk) with
  | .error _ => true
  | .ok _ => false

/-- C8: `enrich_with_ids` never raises to its caller — an empty bulk
dataset (no columns or no rows) or an empty record list returns `(0, items)`
directly, and any error during lookup construction (e.g. a malformed bulk
dataset whose row shape does not match its header) is caught and likewise
degrades to zero enrichment: the function returns 0 and the records are
returned exactly as they came in, with no identifier fields attached. -/
theorem enrich_with_ids_never_fails (items : List RecItem) (bulk : BulkDF) :
    (bulk.cols.isEmpty = true ∨ bulk.rows.isEmpty = true ∨ items = [] →
      enrich_with_ids items bulk = (0, items)) ∧
    (lookupsFailed bulk = true →
      enrich_with_ids items bulk = (0, items)) := by
  constructor
  · intro h
    rw [enrich_with_ids]
    have hg : (bulk.cols.isEmpty || bulk.rows.isEmpty || items.isEmpty) = true := by
      rcases h with h | h | h
      · simp [h]
      · simp [h]
      · simp [h]
    rw [if_pos hg]
  · intro h
    rw [enrich_with_ids]
    by_cases hE : (bulk.cols.isEmpty || bulk.rows.isEmpty || items.isEmpty) = true
    · rw [if_pos hE]
    · rw [if_neg hE]
      rcases hbl : buildLookups (prepare bulk) with e | lk
      · rfl
      · rw [lookupsFailed, hbl] at h
        exact absurd h (by simp)

/-- A malformed bulk dataset: the header announces two columns but the only
row carries a single cell, so reading `Campaign ID` fails during lookup
construction. -/
def raggedBulk : BulkDF :=
  { cols := ["Campaign Name", "Campaign ID"]
    rows := [[.s "A"]] }

/-- Witness for C8: lookup construction fails on `raggedBulk` and the
caller still receives `(0, items)` with the record unchanged. -/
theorem enrich_with_ids_never_fails_witness :
    enrich_with_ids [⟨"A", "AG", none, none, none⟩] raggedBulk
      = (0, [⟨"A", "AG", none, none, none⟩]) := by
  obtain ⟨-, hcatch⟩ :=
    enrich_with_ids_never_fails [⟨"A", "AG", none, none, none⟩] raggedBulk
  exact hcatch (by decide)

/-! ## Cleaning invariants (C9) -/

/-- Non-negativity of a raw numeric cell as `clean_currency` parses it:
missing and non-numeric cells are vacuously fine (they clean to the
default), numeric cells must be non-negative, string cells must not parse to
a negative number. -/
def currencyInputNonneg : PyVal → Prop
  | .na => True
  | .num q => 0 ≤ q
  | .str v => ∀ q, pyFloat? (pyStrip (removeChar ',' (removeChar '$' v))) = some q →
      0 ≤ q
  | .other => True

/-- C9, counterexample: cleaning does not enforce non-negativity — the raw
currency string `"-5"` cleans to the negative value −5, so a canonical row
built from it has a negative numeric field. -/
theorem cleaning_negative_counterexample :
    clean_currency (.str "-5") = -5 ∧ ¬ (0 ≤ clean_currency (.str "-5")) := by
  have h : pyFloatParse? (pyStrip (removeChar ',' (removeChar '$' "-5")))
      = some (true, 5, 0, 0) := by decide
  have hc : clean_currency (.str "-5") = -5 := by
    simp [clean_currency, pyFloat?, h, ratOfParts]
  refine ⟨hc, ?_⟩
  rw [hc]
  norm_num

/-- C9 (amended): cleaning never raises and preserves the parsed value
including its sign — numeric fields are non-negative exactly when the raw
values are (non-negativity is not enforced); missing or unparseable numeric
values become the documented defaults (0 for counts and currency, `None`
for percentage fields); and the textual identifiers of a constructed
recommendation item fall back to the explicit `"Unknown"` sentinel when the
column is absent, never to an unset value (the item fields are total
strings by construction). -/
theorem cleaning_invariants :
    (clean_currency .na = 0 ∧ clean_integer .na = 0 ∧ clean_percentage .na = none ∧
      clean_currency .other = 0 ∧ clean_integer .other = 0 ∧
      clean_percentage .other = none) ∧
    (∀ s, pyFloat? (pyStrip (removeChar ',' (removeChar '$' s))) = none →
      clean_currency (.str s) = 0) ∧
    (∀ s, pyFloat? (pyStrip (removeChar ',' (removeChar '%' s))) = none →
      clean_percentage (.str s) = none) ∧
    (∀ s, pyFloat? (pyStrip (removeChar ',' s)) = none → clean_integer (.str s) = 0) ∧
    (∀ s q, pyFloat? (pyStrip (removeChar ',' (removeChar '$' s))) = some q →
      clean_currency (.str s) = q) ∧
    (∀ v, currencyInputNonneg v → 0 ≤ clean_currency v) ∧
    (∀ i r, r.searchTerm = none → (mkBleedingItem i r).search_term = "Unknown") ∧
    (∀ i r, r.campaignName = none → (mkBleedingItem i r).campaign_name = "Unknown") ∧
    (∀ i r, r.adGroupName = none → (mkBleedingItem i r).ad_group_name = "Unknown") := by
  refine ⟨⟨rfl, rfl, rfl, rfl, rfl, rfl⟩, ?_, ?_, ?_, ?_, ?_, ?_, ?_, ?_⟩
  · intro s h
    simp [clean_currency, h]
  · intro s h
    simp [clean_percentage, h]
  · intro s h
    simp [clean_integer, h]
  · intro s q h
    simp [clean_currency, h]
  · intro v hv
    match v with
    | .na => exact le_refl 0
    | .num q => exact hv
    | .other => exact le_refl 0
    | .str s =>
      rcases hq : pyFloat? (pyStrip (removeChar ',' (removeChar '$' s))) with _ | q
      · simp [clean_currency, hq]
      · have := hv q hq
        simpa [clean_currency, hq] using this
  · intro i r h
    simp [mkBleedingItem, h]
  · intro i r h
    simp [mkBleedingItem, h]
  · intro i r h
    simp [mkBleedingItem, h]

/-- Witness for C9: the unparseable cell `"oops"` cleans to 0, the
percentage cell `"n/a"` to `None`, the currency cell `"$1,000"` to its
parsed value 1000 (non-negative input, non-negative output), and a row with
no text columns yields `"Unknown"` sentinels. -/
theorem cleaning_invariants_witness :
    clean_currency (.str "oops") = 0 ∧
    clean_percentage (.str "n/a") = none ∧
    clean_currency (.str "$1,000") = 1000 ∧
    0 ≤ clean_currency (.str "$1,000") ∧
    (mkBleedingItem 3 ⟨none, none, none, "Broad", none, 0, 0, 0⟩).search_term
      = "Unknown" ∧
    (mkBleedingItem 3 ⟨none, none, none, "Broad", none, 0, 0, 0⟩).campaign_name
      = "Unknown" ∧
    (mkBleedingItem 3 ⟨none, none, none, "Broad", none, 0, 0, 0⟩).ad_group_name
      = "Unknown" := by
  obtain ⟨-, hcur0, hpct, -, hval, hnn, hterm, hcamp, hag⟩ := cleaning_invariants
  have hp : pyFloatParse? (pyStrip (removeChar ',' (removeChar '$' "$1,000")))
      = some (false, 1000, 0, 0) := by decide
  have h1000 : pyFloat? (pyStrip (removeChar ',' (removeChar '$' "$1,000")))
      = some 1000 := by
    rw [pyFloat?, hp]
    norm_num [ratOfParts]
  refine ⟨hcur0 "oops" (by decide), hpct "n/a" (by decide),
    hval "$1,000" 1000 h1000, ?_, hterm 3 _ rfl, hcamp 3 _ rfl, hag 3 _ rfl⟩
  rw [hval "$1,000" 1000 h1000]
  norm_num

end AmazonPPC
